import Mathlib

/-!
Shallow embedding of the guarded swap pipeline of the gateway-api
repository: the constant-product (uniswap) router in src/unnamed/part_000
and the weighted-pool (balancer) router in src/src/routes/balancer.route.js.

JavaScript numbers are idealized as exact rationals, except where a claim
hinges on number-to-string conversion semantics (parseInt applied to a
number goes through its string form, which switches to exponential
notation outside [1e-6, 1e21)), which is modelled explicitly, and except
for NaN, which is modelled explicitly because guard truthiness depends on
it.  External collaborators (route fetching, swap submission, the token
registry, the clock) are passed to each handler as explicit arguments, so
a handler is a pure function from its request parameters and the behaviour
of its collaborators to an Outcome: which pipeline steps ran and which
HTTP response, if any, was sent.
-/

namespace GatewayApi

/-- A JavaScript number as the handlers see it: an exact rational, or NaN
(as produced by parseFloat on a non-numeric string). -/
inductive JSNum where
  | num (val : ℚ)
  | nan
deriving DecidableEq, Repr

/-- JavaScript truthiness of a number: 0 and NaN are falsy, everything
else is truthy. -/
def JSNum.truthy : JSNum → Bool
  | .num v => v != 0
  | .nan => false

/-- Fuel-driven base-10 logarithm helper (floor); the fuel only needs to
exceed the number of decimal digits. -/
def natLog10Fuel : ℕ → ℕ → ℕ
  | 0, _ => 0
  | fuel + 1, n => if n < 10 then 0 else natLog10Fuel fuel (n / 10) + 1

/-- Floor of the base-10 logarithm of a natural number; 0 for n < 10. -/
def natLog10 (n : ℕ) : ℕ := natLog10Fuel n n

/-- The exponent e with 10 ^ e ≤ q < 10 ^ (e + 1) for a positive rational
q (the decimal exponent of its leading significant digit); 0 for
nonpositive inputs, which the handlers never produce. -/
def sigExp10 (q : ℚ) : ℤ :=
  if 1 ≤ q then (natLog10 ⌊q⌋.toNat : ℤ)
  else if 0 < q then
    let m : ℕ := natLog10 ⌊(q⁻¹ : ℚ)⌋.toNat
    if (10 : ℚ) ^ (-(m : ℤ)) ≤ q then -(m : ℤ) else -(m : ℤ) - 1
  else 0

/-- The leading significant decimal digit of a positive rational. -/
def firstSigDigit (q : ℚ) : ℤ := ⌊q * (10 : ℚ) ^ (-(sigExp10 q))⌋

/-- parseInt applied to a JavaScript number n, as the handlers use it:
JavaScript first converts n to a string — plain decimal notation when
1e-6 ≤ n < 1e21, exponential notation otherwise — and parseInt then reads
leading digits, stopping at a decimal point or at the exponent marker, so
in the exponential regimes only the leading significant digit survives.
Modelled for nonnegative inputs with exact rational arithmetic. -/
def jsParseIntOfNum (q : ℚ) : ℤ :=
  if q ≤ 0 then 0
  else if q < 1 / 1000000 then firstSigDigit q
  else if q < 10 ^ 21 then ⌊q⌋
  else firstSigDigit q

/-- The fixed denomination multiplier of both routers (1e18, named
denomMultiplier in part_000 and written inline in balancer.route.js). -/
def denomMultiplier : ℚ := 10 ^ 18

/-- The amount conversion performed by the trade handlers (part_000 line
163 and balancer.route.js lines 48-49):
new BigNumber(parseInt(amount * denomMultiplier)).  The multiplication is
plain JavaScript number arithmetic and parseInt goes through the string
form of the product; only then is the result wrapped in a BigNumber. -/
def toBaseUnits (a : ℚ) : ℤ := jsParseIntOfNum (a * denomMultiplier)

/-- The inverse conversion used when displaying base-unit integers
(division by 1e18, balancer.route.js lines 34 and 80). -/
def fromBaseUnits (n : ℤ) : ℚ := (n : ℚ) / denomMultiplier

/-- toSignificant(8) of the SDK price objects: round to 8 significant
decimal digits, half-up, idealizing the resulting decimal string as its
exact rational value.  Nonpositive inputs (never produced by a price)
map to 0. -/
def toSignificant8 (q : ℚ) : ℚ :=
  if q ≤ 0 then 0
  else
    let s : ℚ := (10 : ℚ) ^ ((7 : ℤ) - sigExp10 q)
    (⌊q * s + 1 / 2⌋ : ℚ) / s

/-- A JavaScript error value as the catch blocks see it: it may or may not
carry a structured reason field (err.reason).  A TypeError raised by a
property access on null carries none. -/
structure JsError where
  reason : Option String
deriving DecidableEq, Repr

/-- The transaction receipt returned by uniswap.swapExactIn after
confirmation. -/
structure TxObj where
  gasUsed : ℤ
  transactionHash : String
  status : ℤ
deriving DecidableEq, Repr

/-- A route as returned by uniswap.fetch_route: a path through pools and
the marginal price, expressed in tokenOut units per tokenIn unit for the
queried pair. -/
structure Route where
  midPrice : ℚ
  path : List String
deriving DecidableEq, Repr

/-- The result of balancer.getSwaps: the pool swap list and the expected
base-unit output amount. -/
structure SwapsResult where
  swaps : List String
  expectedOut : ℚ
deriving DecidableEq, Repr

/-- A JSON field value as produced by the handlers.  Decimal price
strings are idealized as their rational value; the interp constructor
represents a template string interpolating a price and a bound, keeping
the surrounding text and the interpolated values structurally. -/
inductive JVal where
  | str (s : String)
  | rat (q : ℚ)
  | int (n : ℤ)
  | list (xs : List String)
  | jerr (e : JsError)
  | interp (pre : String) (price : ℚ) (mid : String) (bound : Option JSNum)
deriving DecidableEq, Repr

/-- An HTTP response: status code and JSON body as an ordered field
list. -/
structure Response where
  status : ℕ
  body : List (String × JVal)
deriving DecidableEq, Repr

/-- The observable outcome of running a handler on one request: whether
the route query ran, whether the trade executor was invoked, the signer
key the wallet was constructed from (none for quote handlers and for
requests stopped by middleware), and the response sent (none when the
handler finishes without sending one). -/
structure Outcome where
  queriedRoute : Bool
  executed : Bool
  walletKey : Option String
  response : Option Response
deriving DecidableEq, Repr

/-- Field lookup inside the response body of an outcome. -/
def Outcome.field (o : Outcome) (k : String) : Option JVal :=
  o.response.bind fun r => r.body.lookup k

/-- Modelled from the spec: the latency helper of services/utils (that
file is not under src); the spec describes it as the elapsed wall time
between the request start time and the formatting time. -/
def latency (t1 t2 : ℤ) : ℤ := t2 - t1

/-- Modelled from the spec: statusMessages.operation_error of
services/utils (not under src); the spec names the generic fallback code
operation_error. -/
def operationErrorCode : String := "operation_error"

/-- Modelled from the spec: statusMessages.no_pool_available of
services/utils (not under src); the spec gives the no-route error code
no_pool_available. -/
def noPoolAvailableCode : String := "no_pool_available"

/-- Modelled from the spec: statusMessages.ssl_cert_invalid of
services/utils (not under src); its exact text is unconstrained by the
claims. -/
def sslCertInvalidMsg : String := "ssl_cert_invalid"

/-- Modelled from the spec: statusMessages.ssl_cert_required of
services/utils (not under src); its exact text is unconstrained by the
claims. -/
def sslCertRequiredMsg : String := "ssl_cert_required"

/-- The sell rejection error text, part_000 line 18. -/
def swapLessThanMaxPriceError : String := "Swap price lower than maxPrice"

/-- The buy rejection error text, part_000 line 17. -/
def swapMoreThanMaxPriceError : String := "Swap price exceeds maxPrice"

/-- The error code chosen by every catch block of part_000:
err.reason if truthy (present and non-empty), otherwise
statusMessages.operation_error. -/
def classifyReason (e : JsError) : String :=
  match e.reason with
  | some r => if r = "" then operationErrorCode else r
  | none => operationErrorCode

/-- The response built by every catch block of part_000: status 500 with
the classified error code and the raw error as message. -/
def classifiedResponse (e : JsError) : Response :=
  ⟨500, [("error", .str (classifyReason e)), ("message", .jerr e)]⟩

/-- The no-route response of the quote handlers of part_000. -/
def noPoolResponse : Response :=
  ⟨200, [("error", .str noPoolAvailableCode), ("message", .str "")]⟩

/-- The sell guard expression of part_000 line 186:
if (!maxPrice || price >= maxPrice).  The argument m is none when the
maxPrice field was absent or empty (so the parse branch never ran and the
variable stayed undefined), otherwise the parseFloat value of the
supplied string.  A falsy parsed value (0 or NaN) short-circuits the
guard to pass; a NaN never reaches the comparison. -/
def sellGuard (price : ℚ) (m : Option JSNum) : Bool :=
  match m with
  | none => true
  | some (.num b) => b == 0 || decide (b ≤ price)
  | some .nan => true

/-- The buy guard expression of part_000 line 267 and balancer.route.js
line 62: if (!maxPrice || price <= maxPrice), with the same truthiness
behaviour as the sell guard. -/
def buyGuard (price : ℚ) (m : Option JSNum) : Bool :=
  match m with
  | none => true
  | some (.num b) => b == 0 || decide (price ≤ b)
  | some .nan => true

/-- The parameters of a trade request as extracted by getParamData:
maxPrice and gasPrice are none when the field is absent or empty, and
otherwise carry the parseFloat value (possibly NaN).  The amount is
assumed numeric, as every claim exercises numeric amounts. -/
structure TradeParams where
  privateKey : String
  base : String
  quote : String
  amount : ℚ
  maxPrice : Option JSNum
  gasPrice : Option JSNum
deriving DecidableEq, Repr

/-- Shallow embedding of router.post /sell-price (part_000 lines 45-93).
fetchRoute is the uniswap.fetch_route collaborator (it may throw), t0 the
initTime clock read and t1 the clock read taken while formatting. -/
def uniswapSellPrice (network : String)
    (fetchRoute : String → String → Except JsError (Option Route))
    (t0 t1 : ℤ) (base quote : String) (amount : ℚ) : Outcome :=
  match fetchRoute base quote with
  | .error e => ⟨true, false, none, some (classifiedResponse e)⟩
  | .ok none => ⟨true, false, none, some noPoolResponse⟩
  | .ok (some route) =>
      let price := toSignificant8 route.midPrice
      ⟨true, false, none, some ⟨200,
        [("network", .str network), ("timestamp", .int t0),
         ("latency", .int (latency t0 t1)),
         ("base", .str base), ("quote", .str quote),
         ("amount", .rat amount),
         ("expectedOut", .rat (amount * price)),
         ("price", .rat price),
         ("swaps", .list route.path)]⟩⟩

/-- Shallow embedding of router.post /buy-price (part_000 lines 95-142):
the route is fetched with tokenIn = quote and tokenOut = base, and the
marginal price is inverted before rounding and display. -/
def uniswapBuyPrice (network : String)
    (fetchRoute : String → String → Except JsError (Option Route))
    (t0 t1 : ℤ) (base quote : String) (amount : ℚ) : Outcome :=
  match fetchRoute quote base with
  | .error e => ⟨true, false, none, some (classifiedResponse e)⟩
  | .ok none => ⟨true, false, none, some noPoolResponse⟩
  | .ok (some route) =>
      let price := toSignificant8 route.midPrice⁻¹
      ⟨true, false, none, some ⟨200,
        [("network", .str network), ("timestamp", .int t0),
         ("latency", .int (latency t0 t1)),
         ("base", .str base), ("quote", .str quote),
         ("amount", .rat amount),
         ("expectedIn", .rat (amount * price)),
         ("price", .rat price),
         ("swaps", .list route.path)]⟩⟩

/-- Shallow embedding of router.post /sell (part_000 lines 144-225).
execResult is the receipt (or failure) uniswap.swapExactIn would produce
if invoked.  A null route flows into route.midPrice and raises a
TypeError, which carries no reason field and is handled by the catch
block; the guard then never runs. -/
def uniswapSell (network : String)
    (fetchRoute : String → String → Except JsError (Option Route))
    (execResult : Except JsError TxObj) (t0 t1 : ℤ) (p : TradeParams) :
    Outcome :=
  let wallet := p.privateKey
  match fetchRoute p.base p.quote with
  | .error e => ⟨true, false, some wallet, some (classifiedResponse e)⟩
  | .ok none => ⟨true, false, some wallet, some (classifiedResponse ⟨none⟩)⟩
  | .ok (some route) =>
      let price := toSignificant8 route.midPrice
      if sellGuard price p.maxPrice then
        match execResult with
        | .error e => ⟨true, true, some wallet, some (classifiedResponse e)⟩
        | .ok tx =>
            ⟨true, true, some wallet, some ⟨200,
              [("network", .str network), ("timestamp", .int t0),
               ("latency", .int (latency t0 t1)),
               ("base", .str p.base), ("quote", .str p.quote),
               ("amount", .rat p.amount),
               ("expectedOut", .rat (p.amount * price)),
               ("price", .rat price),
               ("gasUsed", .int tx.gasUsed),
               ("txHash", .str tx.transactionHash),
               ("status", .int tx.status)]⟩⟩
      else
        ⟨true, false, some wallet, some ⟨200,
          [("error", .str swapLessThanMaxPriceError),
           ("message",
            .interp "Swap price " price " lower than maxPrice "
              p.maxPrice)]⟩⟩

/-- Shallow embedding of router.post /buy (part_000 lines 227-306): the
route is fetched with tokenIn = quote and tokenOut = base, the marginal
price is inverted before the guard comparison and display, and the guard
rejects when the inverted price exceeds a truthy maxPrice. -/
def uniswapBuy (network : String)
    (fetchRoute : String → String → Except JsError (Option Route))
    (execResult : Except JsError TxObj) (t0 t1 : ℤ) (p : TradeParams) :
    Outcome :=
  let wallet := p.privateKey
  match fetchRoute p.quote p.base with
  | .error e => ⟨true, false, some wallet, some (classifiedResponse e)⟩
  | .ok none => ⟨true, false, some wallet, some (classifiedResponse ⟨none⟩)⟩
  | .ok (some route) =>
      let price := toSignificant8 route.midPrice⁻¹
      if buyGuard price p.maxPrice then
        match execResult with
        | .error e => ⟨true, true, some wallet, some (classifiedResponse e)⟩
        | .ok tx =>
            ⟨true, true, some wallet, some ⟨200,
              [("network", .str network), ("timestamp", .int t0),
               ("latency", .int (latency t0 t1)),
               ("base", .str p.base), ("quote", .str p.quote),
               ("amount", .rat p.amount),
               ("expectedIn", .rat (p.amount * price)),
               ("price", .rat price),
               ("gasUsed", .int tx.gasUsed),
               ("txHash", .str tx.transactionHash),
               ("status", .int tx.status)]⟩⟩
      else
        ⟨true, false, some wallet, some ⟨200,
          [("error", .str swapMoreThanMaxPriceError),
           ("message",
            .interp "Swap price " price " exceeds maxPrice "
              p.maxPrice)]⟩⟩

/-- Shallow embedding of router.get /price of balancer.route.js (lines
12-38).  erc20 is the token registry lookup, getSwaps the balancer-sor
collaborator; the displayed price divides the base-unit input amount by
the expected base-unit output. -/
def balancerPrice (network : String) (erc20 : String → String)
    (getSwaps : String → String → ℤ → SwapsResult) (t0 t1 : ℤ)
    (tokenIn tokenOut : String) (amount : ℚ) : Outcome :=
  let amountBase := toBaseUnits amount
  let r := getSwaps (erc20 tokenIn) (erc20 tokenOut) amountBase
  ⟨true, false, none, some ⟨200,
    [("network", .str network), ("timestamp", .int t0),
     ("latency", .int (latency t0 t1)),
     ("tokenIn", .str tokenIn), ("tokenOut", .str tokenOut),
     ("amount", .rat amount),
     ("expectedOut", .rat (fromBaseUnits (jsParseIntOfNum r.expectedOut))),
     ("price", .rat ((amountBase : ℚ) / r.expectedOut)),
     ("swaps", .list r.swaps)]⟩⟩

/-- Shallow embedding of router.get /trade of balancer.route.js (lines
40-87).  The wallet key is built from the ETH_PRIVATE_KEY environment
variable prefixed with 0x, not from the request; execHash is the hash
balancer.batchSwapExactIn would return if invoked.  When the guard
rejects, the handler only logs and sends no response. -/
def balancerTrade (network : String) (envPrivateKey : String)
    (erc20 : String → String)
    (getSwaps : String → String → ℤ → SwapsResult) (execHash : String)
    (t0 t1 : ℤ) (tokenIn tokenOut : String) (amount : ℚ)
    (maxPrice : Option JSNum) : Outcome :=
  let wallet := "0x" ++ envPrivateKey
  let amountBase := toBaseUnits amount
  let r := getSwaps (erc20 tokenIn) (erc20 tokenOut) amountBase
  let price := (amountBase : ℚ) / r.expectedOut
  if buyGuard price maxPrice then
    ⟨true, true, some wallet, some ⟨200,
      [("network", .str network), ("timestamp", .int t0),
       ("latency", .int (latency t0 t1)),
       ("tokenIn", .str tokenIn), ("tokenOut", .str tokenOut),
       ("amount", .rat amount),
       ("expectedOut", .rat (r.expectedOut / denomMultiplier)),
       ("price", .rat price),
       ("txHash", .str execHash)]⟩⟩
  else
    ⟨true, false, some wallet, none⟩

/-- The peer certificate state of a request as the middleware reads it:
req.client.authorized and cert.subject. -/
structure ClientCert where
  authorized : Bool
  subject : Option String
deriving DecidableEq, Repr

/-- The client-certificate middleware installed by router.use on the
constant-product router (part_000 lines 20-29): none means next() was
called, otherwise the rejection response it sends. -/
def certMiddleware (c : ClientCert) : Option Response :=
  if c.authorized then none
  else if c.subject.isSome then
    some ⟨403, [("error", .str sslCertInvalidMsg)]⟩
  else
    some ⟨401, [("error", .str sslCertRequiredMsg)]⟩

/-- Composition of the certificate middleware with a handler: when the
middleware rejects, the handler never runs, so no route query, guard
check or execution happens. -/
def withCertMiddleware (c : ClientCert) (handler : Outcome) : Outcome :=
  match certMiddleware c with
  | some r => ⟨false, false, none, some r⟩
  | none => handler

/-- The constant-product router as mounted: certificate middleware first,
then the /sell handler. -/
def uniswapRouterSell (c : ClientCert) (network : String)
    (fetchRoute : String → String → Except JsError (Option Route))
    (execResult : Except JsError TxObj) (t0 t1 : ℤ) (p : TradeParams) :
    Outcome :=
  withCertMiddleware c (uniswapSell network fetchRoute execResult t0 t1 p)

/-- The constant-product router as mounted: certificate middleware first,
then the /buy handler. -/
def uniswapRouterBuy (c : ClientCert) (network : String)
    (fetchRoute : String → String → Except JsError (Option Route))
    (execResult : Except JsError TxObj) (t0 t1 : ℤ) (p : TradeParams) :
    Outcome :=
  withCertMiddleware c (uniswapBuy network fetchRoute execResult t0 t1 p)

/-- The weighted-pool router as mounted: balancer.route.js registers no
middleware at all (it only defines the two GET handlers), so the /trade
handler runs for every request regardless of the client certificate. -/
def balancerRouterTrade (_c : ClientCert) (network : String)
    (envPrivateKey : String) (erc20 : String → String)
    (getSwaps : String → String → ℤ → SwapsResult) (execHash : String)
    (t0 t1 : ℤ) (tokenIn tokenOut : String) (amount : ℚ)
    (maxPrice : Option JSNum) : Outcome :=
  balancerTrade network envPrivateKey erc20 getSwaps execHash t0 t1
    tokenIn tokenOut amount maxPrice

theorem sellGuard_none (price : ℚ) : sellGuard price none = true := rfl

theorem sellGuard_nan (price : ℚ) : sellGuard price (some .nan) = true := rfl

theorem sellGuard_zero (price : ℚ) : sellGuard price (some (.num 0)) = true := by
  simp [sellGuard]

theorem sellGuard_truthy (price b : ℚ) (hb : b ≠ 0) :
    sellGuard price (some (.num b)) = true ↔ b ≤ price := by
  simp [sellGuard, hb]

theorem buyGuard_none (price : ℚ) : buyGuard price none = true := rfl

theorem buyGuard_nan (price : ℚ) : buyGuard price (some .nan) = true := rfl

theorem buyGuard_zero (price : ℚ) : buyGuard price (some (.num 0)) = true := by
  simp [buyGuard]

theorem buyGuard_truthy (price b : ℚ) (hb : b ≠ 0) :
    buyGuard price (some (.num b)) = true ↔ price ≤ b := by
  simp [buyGuard, hb]

theorem uniswapSell_fetch_err (network : String)
    (f : String → String → Except JsError (Option Route))
    (tx : Except JsError TxObj) (t0 t1 : ℤ) (p : TradeParams) (e : JsError)
    (hre : f p.base p.quote = Except.error e) :
    uniswapSell network f tx t0 t1 p
      = ⟨true, false, some p.privateKey, some (classifiedResponse e)⟩ := by
  unfold uniswapSell
  rw [hre]

theorem uniswapSell_no_route (network : String)
    (f : String → String → Except JsError (Option Route))
    (tx : Except JsError TxObj) (t0 t1 : ℤ) (p : TradeParams)
    (hr : f p.base p.quote = Except.ok none) :
    uniswapSell network f tx t0 t1 p
      = ⟨true, false, some p.privateKey, some (classifiedResponse ⟨none⟩)⟩ := by
  unfold uniswapSell
  rw [hr]

theorem uniswapSell_ok (network : String)
    (f : String → String → Except JsError (Option Route))
    (t : TxObj) (t0 t1 : ℤ) (p : TradeParams) (r : Route)
    (hr : f p.base p.quote = Except.ok (some r))
    (hg : sellGuard (toSignificant8 r.midPrice) p.maxPrice = true) :
    uniswapSell network f (Except.ok t) t0 t1 p
      = ⟨true, true, some p.privateKey, some ⟨200,
          [("network", .str network), ("timestamp", .int t0),
           ("latency", .int (latency t0 t1)),
           ("base", .str p.base), ("quote", .str p.quote),
           ("amount", .rat p.amount),
           ("expectedOut", .rat (p.amount * toSignificant8 r.midPrice)),
           ("price", .rat (toSignificant8 r.midPrice)),
           ("gasUsed", .int t.gasUsed),
           ("txHash", .str t.transactionHash),
           ("status", .int t.status)]⟩⟩ := by
  simp only [uniswapSell, hr, hg, if_true]

theorem uniswapSell_exec_err (network : String)
    (f : String → String → Except JsError (Option Route))
    (e : JsError) (t0 t1 : ℤ) (p : TradeParams) (r : Route)
    (hr : f p.base p.quote = Except.ok (some r))
    (hg : sellGuard (toSignificant8 r.midPrice) p.maxPrice = true) :
    uniswapSell network f (Except.error e) t0 t1 p
      = ⟨true, true, some p.privateKey, some (classifiedResponse e)⟩ := by
  simp only [uniswapSell, hr, hg, if_true]

theorem uniswapSell_reject (network : String)
    (f : String → String → Except JsError (Option Route))
    (tx : Except JsError TxObj) (t0 t1 : ℤ) (p : TradeParams) (r : Route)
    (hr : f p.base p.quote = Except.ok (some r))
    (hg : sellGuard (toSignificant8 r.midPrice) p.maxPrice = false) :
    uniswapSell network f tx t0 t1 p
      = ⟨true, false, some p.privateKey, some ⟨200,
          [("error", .str swapLessThanMaxPriceError),
           ("message", .interp "Swap price " (toSignificant8 r.midPrice)
              " lower than maxPrice " p.maxPrice)]⟩⟩ := by
  simp only [uniswapSell, hr, hg, if_false, Bool.false_eq_true]

theorem uniswapSell_executed (network : String)
    (f : String → String → Except JsError (Option Route))
    (tx : Except JsError TxObj) (t0 t1 : ℤ) (p : TradeParams) (r : Route)
    (hr : f p.base p.quote = Except.ok (some r)) :
    (uniswapSell network f tx t0 t1 p).executed
      = sellGuard (toSignificant8 r.midPrice) p.maxPrice := by
  simp only [uniswapSell, hr]
  cases hg : sellGuard (toSignificant8 r.midPrice) p.maxPrice
  · simp [hg]
  · cases tx <;> simp [hg]

theorem uniswapSell_wallet (network : String)
    (f : String → String → Except JsError (Option Route))
    (tx : Except JsError TxObj) (t0 t1 : ℤ) (p : TradeParams) :
    (uniswapSell network f tx t0 t1 p).walletKey = some p.privateKey := by
  unfold uniswapSell
  cases hf : f p.base p.quote with
  | error e => rfl
  | ok o =>
    cases o with
    | none => rfl
    | some r =>
      cases hg : sellGuard (toSignificant8 r.midPrice) p.maxPrice
      · simp [hg]
      · cases tx <;> simp [hg]

theorem uniswapBuy_ok (network : String)
    (f : String → String → Except JsError (Option Route))
    (t : TxObj) (t0 t1 : ℤ) (p : TradeParams) (r : Route)
    (hr : f p.quote p.base = Except.ok (some r))
    (hg : buyGuard (toSignificant8 r.midPrice⁻¹) p.maxPrice = true) :
    uniswapBuy network f (Except.ok t) t0 t1 p
      = ⟨true, true, some p.privateKey, some ⟨200,
          [("network", .str network), ("timestamp", .int t0),
           ("latency", .int (latency t0 t1)),
           ("base", .str p.base), ("quote", .str p.quote),
           ("amount", .rat p.amount),
           ("expectedIn", .rat (p.amount * toSignificant8 r.midPrice⁻¹)),
           ("price", .rat (toSignificant8 r.midPrice⁻¹)),
           ("gasUsed", .int t.gasUsed),
           ("txHash", .str t.transactionHash),
           ("status", .int t.status)]⟩⟩ := by
  simp only [uniswapBuy, hr, hg, if_true]

theorem uniswapBuy_exec_err (network : String)
    (f : String → String → Except JsError (Option Route))
    (e : JsError) (t0 t1 : ℤ) (p : TradeParams) (r : Route)
    (hr : f p.quote p.base = Except.ok (some r))
    (hg : buyGuard (toSignificant8 r.midPrice⁻¹) p.maxPrice = true) :
    uniswapBuy network f (Except.error e) t0 t1 p
      = ⟨true, true, some p.privateKey, some (classifiedResponse e)⟩ := by
  simp only [uniswapBuy, hr, hg, if_true]

theorem uniswapBuy_reject (network : String)
    (f : String → String → Except JsError (Option Route))
    (tx : Except JsError TxObj) (t0 t1 : ℤ) (p : TradeParams) (r : Route)
    (hr : f p.quote p.base = Except.ok (some r))
    (hg : buyGuard (toSignificant8 r.midPrice⁻¹) p.maxPrice = false) :
    uniswapBuy network f tx t0 t1 p
      = ⟨true, false, some p.privateKey, some ⟨200,
          [("error", .str swapMoreThanMaxPriceError),
           ("message", .interp "Swap price " (toSignificant8 r.midPrice⁻¹)
              " exceeds maxPrice " p.maxPrice)]⟩⟩ := by
  simp only [uniswapBuy, hr, hg, if_false, Bool.false_eq_true]

theorem uniswapBuy_fetch_err (network : String)
    (f : String → String → Except JsError (Option Route))
    (tx : Except JsError TxObj) (t0 t1 : ℤ) (p : TradeParams) (e : JsError)
    (hre : f p.quote p.base = Except.error e) :
    uniswapBuy network f tx t0 t1 p
      = ⟨true, false, some p.privateKey, some (classifiedResponse e)⟩ := by
  unfold uniswapBuy
  rw [hre]

theorem uniswapBuy_no_route (network : String)
    (f : String → String → Except JsError (Option Route))
    (tx : Except JsError TxObj) (t0 t1 : ℤ) (p : TradeParams)
    (hr : f p.quote p.base = Except.ok none) :
    uniswapBuy network f tx t0 t1 p
      = ⟨true, false, some p.privateKey, some (classifiedResponse ⟨none⟩)⟩ := by
  unfold uniswapBuy
  rw [hr]

theorem uniswapBuy_executed (network : String)
    (f : String → String → Except JsError (Option Route))
    (tx : Except JsError TxObj) (t0 t1 : ℤ) (p : TradeParams) (r : Route)
    (hr : f p.quote p.base = Except.ok (some r)) :
    (uniswapBuy network f tx t0 t1 p).executed
      = buyGuard (toSignificant8 r.midPrice⁻¹) p.maxPrice := by
  simp only [uniswapBuy, hr]
  cases hg : buyGuard (toSignificant8 r.midPrice⁻¹) p.maxPrice
  · simp [hg]
  · cases tx <;> simp [hg]

theorem uniswapBuy_wallet (network : String)
    (f : String → String → Except JsError (Option Route))
    (tx : Except JsError TxObj) (t0 t1 : ℤ) (p : TradeParams) :
    (uniswapBuy network f tx t0 t1 p).walletKey = some p.privateKey := by
  unfold uniswapBuy
  cases hf : f p.quote p.base with
  | error e => rfl
  | ok o =>
    cases o with
    | none => rfl
    | some r =>
      cases hg : buyGuard (toSignificant8 r.midPrice⁻¹) p.maxPrice
      · simp [hg]
      · cases tx <;> simp [hg]

theorem uniswapSellPrice_route (network : String)
    (f : String → String → Except JsError (Option Route))
    (t0 t1 : ℤ) (base quote : String) (a : ℚ) (r : Route)
    (hr : f base quote = Except.ok (some r)) :
    uniswapSellPrice network f t0 t1 base quote a
      = ⟨true, false, none, some ⟨200,
          [("network", .str network), ("timestamp", .int t0),
           ("latency", .int (latency t0 t1)),
           ("base", .str base), ("quote", .str quote),
           ("amount", .rat a),
           ("expectedOut", .rat (a * toSignificant8 r.midPrice)),
           ("price", .rat (toSignificant8 r.midPrice)),
           ("swaps", .list r.path)]⟩⟩ := by
  unfold uniswapSellPrice
  rw [hr]

theorem uniswapSellPrice_no_route (network : String)
    (f : String → String → Except JsError (Option Route))
    (t0 t1 : ℤ) (base quote : String) (a : ℚ)
    (hr : f base quote = Except.ok none) :
    uniswapSellPrice network f t0 t1 base quote a
      = ⟨true, false, none, some noPoolResponse⟩ := by
  unfold uniswapSellPrice
  rw [hr]

theorem uniswapSellPrice_fetch_err (network : String)
    (f : String → String → Except JsError (Option Route))
    (t0 t1 : ℤ) (base quote : String) (a : ℚ) (e : JsError)
    (hre : f base quote = Except.error e) :
    uniswapSellPrice network f t0 t1 base quote a
      = ⟨true, false, none, some (classifiedResponse e)⟩ := by
  unfold uniswapSellPrice
  rw [hre]

theorem uniswapBuyPrice_route (network : String)
    (f : String → String → Except JsError (Option Route))
    (t0 t1 : ℤ) (base quote : String) (a : ℚ) (r : Route)
    (hr : f quote base = Except.ok (some r)) :
    uniswapBuyPrice network f t0 t1 base quote a
      = ⟨true, false, none, some ⟨200,
          [("network", .str network), ("timestamp", .int t0),
           ("latency", .int (latency t0 t1)),
           ("base", .str base), ("quote", .str quote),
           ("amount", .rat a),
           ("expectedIn", .rat (a * toSignificant8 r.midPrice⁻¹)),
           ("price", .rat (toSignificant8 r.midPrice⁻¹)),
           ("swaps", .list r.path)]⟩⟩ := by
  unfold uniswapBuyPrice
  rw [hr]

theorem uniswapBuyPrice_no_route (network : String)
    (f : String → String → Except JsError (Option Route))
    (t0 t1 : ℤ) (base quote : String) (a : ℚ)
    (hr : f quote base = Except.ok none) :
    uniswapBuyPrice network f t0 t1 base quote a
      = ⟨true, false, none, some noPoolResponse⟩ := by
  unfold uniswapBuyPrice
  rw [hr]

theorem balancerTrade_pass (network envPrivateKey : String)
    (erc20 : String → String)
    (getSwaps : String → String → ℤ → SwapsResult) (execHash : String)
    (t0 t1 : ℤ) (tokenIn tokenOut : String) (amount : ℚ)
    (m : Option JSNum)
    (hg : buyGuard ((toBaseUnits amount : ℚ)
        / (getSwaps (erc20 tokenIn) (erc20 tokenOut)
            (toBaseUnits amount)).expectedOut) m = true) :
    balancerTrade network envPrivateKey erc20 getSwaps execHash t0 t1
        tokenIn tokenOut amount m
      = ⟨true, true, some ("0x" ++ envPrivateKey), some ⟨200,
          [("network", .str network), ("timestamp", .int t0),
           ("latency", .int (latency t0 t1)),
           ("tokenIn", .str tokenIn), ("tokenOut", .str tokenOut),
           ("amount", .rat amount),
           ("expectedOut", .rat ((getSwaps (erc20 tokenIn) (erc20 tokenOut)
               (toBaseUnits amount)).expectedOut / denomMultiplier)),
           ("price", .rat ((toBaseUnits amount : ℚ)
               / (getSwaps (erc20 tokenIn) (erc20 tokenOut)
                   (toBaseUnits amount)).expectedOut)),
           ("txHash", .str execHash)]⟩⟩ := by
  simp only [balancerTrade, hg, if_true]

theorem balancerTrade_reject (network envPrivateKey : String)
    (erc20 : String → String)
    (getSwaps : String → String → ℤ → SwapsResult) (execHash : String)
    (t0 t1 : ℤ) (tokenIn tokenOut : String) (amount : ℚ)
    (m : Option JSNum)
    (hg : buyGuard ((toBaseUnits amount : ℚ)
        / (getSwaps (erc20 tokenIn) (erc20 tokenOut)
            (toBaseUnits amount)).expectedOut) m = false) :
    balancerTrade network envPrivateKey erc20 getSwaps execHash t0 t1
        tokenIn tokenOut amount m
      = ⟨true, false, some ("0x" ++ envPrivateKey), none⟩ := by
  simp only [balancerTrade, hg, if_false, Bool.false_eq_true]

theorem balancerTrade_executed (network envPrivateKey : String)
    (erc20 : String → String)
    (getSwaps : String → String → ℤ → SwapsResult) (execHash : String)
    (t0 t1 : ℤ) (tokenIn tokenOut : String) (amount : ℚ)
    (m : Option JSNum) :
    (balancerTrade network envPrivateKey erc20 getSwaps execHash t0 t1
        tokenIn tokenOut amount m).executed
      = buyGuard ((toBaseUnits amount : ℚ)
          / (getSwaps (erc20 tokenIn) (erc20 tokenOut)
              (toBaseUnits amount)).expectedOut) m := by
  simp only [balancerTrade]
  cases hg : buyGuard ((toBaseUnits amount : ℚ)
      / (getSwaps (erc20 tokenIn) (erc20 tokenOut)
          (toBaseUnits amount)).expectedOut) m
  · simp [hg]
  · simp [hg]

theorem balancerTrade_wallet (network envPrivateKey : String)
    (erc20 : String → String)
    (getSwaps : String → String → ℤ → SwapsResult) (execHash : String)
    (t0 t1 : ℤ) (tokenIn tokenOut : String) (amount : ℚ)
    (m : Option JSNum) :
    (balancerTrade network envPrivateKey erc20 getSwaps execHash t0 t1
        tokenIn tokenOut amount m).walletKey
      = some ("0x" ++ envPrivateKey) := by
  simp only [balancerTrade]
  cases hg : buyGuard ((toBaseUnits amount : ℚ)
      / (getSwaps (erc20 tokenIn) (erc20 tokenOut)
          (toBaseUnits amount)).expectedOut) m
  · simp [hg]
  · simp [hg]

/-- Fetch oracle used by concrete witnesses: the route for the pair
(b, q) has midPrice 95 and the reverse pair (q, b) has midPrice 1/200. -/
def fetchW1 : String → String → Except JsError (Option Route) :=
  fun a _ => if a = "b" then Except.ok (some ⟨95, []⟩)
    else Except.ok (some ⟨1 / 200, []⟩)

/-- Claim C1 (amended): for a trade request whose supplied bound parses to
a nonzero number b, the sell executor is invoked iff the observed price is
at least b, and the buy executor (and the weighted-pool trade executor)
iff the observed price is at most b; with no bound supplied the guard
always passes and the executor is always invoked.  (As stated, the claim
fails for a supplied bound of 0 or NaN, which the code treats as absent.) -/
theorem C1_guard_amended (network : String)
    (f : String → String → Except JsError (Option Route))
    (tx : Except JsError TxObj) (t0 t1 : ℤ) (p : TradeParams)
    (r r2 : Route) (b : ℚ)
    (net env : String) (erc : String → String)
    (gs : String → String → ℤ → SwapsResult) (hsh tin tout : String)
    (a : ℚ)
    (hb : b ≠ 0)
    (hsell : f p.base p.quote = Except.ok (some r))
    (hbuy : f p.quote p.base = Except.ok (some r2)) :
    ((uniswapSell network f tx t0 t1
        { p with maxPrice := some (.num b) }).executed = true
      ↔ b ≤ toSignificant8 r.midPrice)
    ∧ ((uniswapBuy network f tx t0 t1
        { p with maxPrice := some (.num b) }).executed = true
      ↔ toSignificant8 r2.midPrice⁻¹ ≤ b)
    ∧ (uniswapSell network f tx t0 t1
        { p with maxPrice := none }).executed = true
    ∧ (uniswapBuy network f tx t0 t1
        { p with maxPrice := none }).executed = true
    ∧ ((balancerTrade net env erc gs hsh t0 t1 tin tout a
        (some (.num b))).executed = true
      ↔ (toBaseUnits a : ℚ)
          / (gs (erc tin) (erc tout) (toBaseUnits a)).expectedOut ≤ b)
    ∧ (balancerTrade net env erc gs hsh t0 t1 tin tout a
        none).executed = true := by
  refine ⟨?_, ?_, ?_, ?_, ?_, ?_⟩
  · rw [uniswapSell_executed network f tx t0 t1
        { p with maxPrice := some (.num b) } r hsell]
    exact sellGuard_truthy _ b hb
  · rw [uniswapBuy_executed network f tx t0 t1
        { p with maxPrice := some (.num b) } r2 hbuy]
    exact buyGuard_truthy _ b hb
  · rw [uniswapSell_executed network f tx t0 t1
        { p with maxPrice := none } r hsell]
    exact sellGuard_none _
  · rw [uniswapBuy_executed network f tx t0 t1
        { p with maxPrice := none } r2 hbuy]
    exact buyGuard_none _
  · rw [balancerTrade_executed]
    exact buyGuard_truthy _ b hb
  · rw [balancerTrade_executed]
    exact buyGuard_none _

/-- Claim C1, witness: the amended guard law evaluated at bound 2,
sell price 95, buy price 200 and a weighted-pool price of 200. -/
theorem C1_guard_amended_witness :
    ((2 : ℚ) ≠ 0
     ∧ fetchW1 "b" "q" = Except.ok (some ⟨95, []⟩)
     ∧ fetchW1 "q" "b" = Except.ok (some ⟨1 / 200, []⟩))
    ∧ (((uniswapSell "n" fetchW1 (Except.ok ⟨21000, "0xabc", 1⟩) 0 5
          { privateKey := "k", base := "b", quote := "q", amount := 1,
            maxPrice := some (.num 2), gasPrice := none }).executed = true
        ↔ (2 : ℚ) ≤ toSignificant8 (95 : ℚ))
      ∧ (((uniswapBuy "n" fetchW1 (Except.ok ⟨21000, "0xabc", 1⟩) 0 5
          { privateKey := "k", base := "b", quote := "q", amount := 1,
            maxPrice := some (.num 2), gasPrice := none }).executed = true)
        ↔ toSignificant8 ((1 : ℚ) / 200)⁻¹ ≤ 2)
      ∧ (uniswapSell "n" fetchW1 (Except.ok ⟨21000, "0xabc", 1⟩) 0 5
          { privateKey := "k", base := "b", quote := "q", amount := 1,
            maxPrice := none, gasPrice := none }).executed = true
      ∧ (uniswapBuy "n" fetchW1 (Except.ok ⟨21000, "0xabc", 1⟩) 0 5
          { privateKey := "k", base := "b", quote := "q", amount := 1,
            maxPrice := none, gasPrice := none }).executed = true
      ∧ (((balancerTrade "n2" "e" id (fun _ _ _ => ⟨[], 10 ^ 18⟩) "h1" 0 5
            "ti" "to" 200 (some (.num 2))).executed = true)
        ↔ (toBaseUnits 200 : ℚ)
            / ((fun (_ _ : String) (_ : ℤ) =>
                (⟨[], 10 ^ 18⟩ : SwapsResult)) (id "ti") (id "to")
                (toBaseUnits 200)).expectedOut ≤ 2)
      ∧ (balancerTrade "n2" "e" id (fun _ _ _ => ⟨[], 10 ^ 18⟩) "h1" 0 5
          "ti" "to" 200 none).executed = true) :=
  ⟨⟨by norm_num, by with_unfolding_all rfl, by with_unfolding_all rfl⟩,
    C1_guard_amended "n" fetchW1 (Except.ok ⟨21000, "0xabc", 1⟩) 0 5
      { privateKey := "k", base := "b", quote := "q", amount := 1,
        maxPrice := none, gasPrice := none }
      ⟨95, []⟩ ⟨1 / 200, []⟩ 2 "n2" "e" id (fun _ _ _ => ⟨[], 10 ^ 18⟩)
      "h1" "ti" "to" 200 (by norm_num)
      (by with_unfolding_all rfl) (by with_unfolding_all rfl)⟩

/-- Claim C1, counterexample: on the buy endpoint a supplied bound of 0
with observed price 1 invokes the executor although 1 ≤ 0 fails, so the
claimed equivalence is false as stated. -/
theorem C1_guard_counterexample :
    ¬ (((uniswapBuy "n" (fun _ _ => Except.ok (some ⟨1, []⟩))
          (Except.ok ⟨21000, "0xabc", 1⟩) 0 0
          { privateKey := "k", base := "b", quote := "q", amount := 1,
            maxPrice := some (.num 0), gasPrice := none }).executed = true)
        ↔ toSignificant8 ((1 : ℚ)⁻¹) ≤ 0) := by
  with_unfolding_all decide

/-- Claim C9 (confirmed): a trade request whose maxPrice parses to 0 or
NaN behaves exactly as one with no bound at all, and the executor is
invoked regardless of the observed price, because bound presence is
tested by JavaScript truthiness of the parsed value. -/
theorem C9_falsy_bound (network : String)
    (f : String → String → Except JsError (Option Route))
    (tx : Except JsError TxObj) (t0 t1 : ℤ) (p : TradeParams)
    (r r2 : Route)
    (net env : String) (erc : String → String)
    (gs : String → String → ℤ → SwapsResult) (hsh tin tout : String)
    (a : ℚ)
    (hsell : f p.base p.quote = Except.ok (some r))
    (hbuy : f p.quote p.base = Except.ok (some r2)) :
    (uniswapSell network f tx t0 t1 { p with maxPrice := some (.num 0) }
      = uniswapSell network f tx t0 t1 { p with maxPrice := none })
    ∧ (uniswapSell network f tx t0 t1 { p with maxPrice := some .nan }
      = uniswapSell network f tx t0 t1 { p with maxPrice := none })
    ∧ (uniswapBuy network f tx t0 t1 { p with maxPrice := some (.num 0) }
      = uniswapBuy network f tx t0 t1 { p with maxPrice := none })
    ∧ (uniswapBuy network f tx t0 t1 { p with maxPrice := some .nan }
      = uniswapBuy network f tx t0 t1 { p with maxPrice := none })
    ∧ (uniswapSell network f tx t0 t1
        { p with maxPrice := some (.num 0) }).executed = true
    ∧ (uniswapBuy network f tx t0 t1
        { p with maxPrice := some (.num 0) }).executed = true
    ∧ (balancerTrade net env erc gs hsh t0 t1 tin tout a (some (.num 0))
      = balancerTrade net env erc gs hsh t0 t1 tin tout a none)
    ∧ (balancerTrade net env erc gs hsh t0 t1 tin tout a (some .nan)
      = balancerTrade net env erc gs hsh t0 t1 tin tout a none)
    ∧ (balancerTrade net env erc gs hsh t0 t1 tin tout a
        (some (.num 0))).executed = true
    ∧ (balancerTrade net env erc gs hsh t0 t1 tin tout a
        (some .nan)).executed = true := by
  refine ⟨?_, ?_, ?_, ?_, ?_, ?_, ?_, ?_, ?_, ?_⟩
  · cases tx with
    | error e =>
        rw [uniswapSell_exec_err network f e t0 t1
              { p with maxPrice := some (.num 0) } r hsell
              (sellGuard_zero _),
            uniswapSell_exec_err network f e t0 t1
              { p with maxPrice := none } r hsell (sellGuard_none _)]
    | ok t =>
        rw [uniswapSell_ok network f t t0 t1
              { p with maxPrice := some (.num 0) } r hsell
              (sellGuard_zero _),
            uniswapSell_ok network f t t0 t1
              { p with maxPrice := none } r hsell (sellGuard_none _)]
  · cases tx with
    | error e =>
        rw [uniswapSell_exec_err network f e t0 t1
              { p with maxPrice := some .nan } r hsell (sellGuard_nan _),
            uniswapSell_exec_err network f e t0 t1
              { p with maxPrice := none } r hsell (sellGuard_none _)]
    | ok t =>
        rw [uniswapSell_ok network f t t0 t1
              { p with maxPrice := some .nan } r hsell (sellGuard_nan _),
            uniswapSell_ok network f t t0 t1
              { p with maxPrice := none } r hsell (sellGuard_none _)]
  · cases tx with
    | error e =>
        rw [uniswapBuy_exec_err network f e t0 t1
              { p with maxPrice := some (.num 0) } r2 hbuy
              (buyGuard_zero _),
            uniswapBuy_exec_err network f e t0 t1
              { p with maxPrice := none } r2 hbuy (buyGuard_none _)]
    | ok t =>
        rw [uniswapBuy_ok network f t t0 t1
              { p with maxPrice := some (.num 0) } r2 hbuy
              (buyGuard_zero _),
            uniswapBuy_ok network f t t0 t1
              { p with maxPrice := none } r2 hbuy (buyGuard_none _)]
  · cases tx with
    | error e =>
        rw [uniswapBuy_exec_err network f e t0 t1
              { p with maxPrice := some .nan } r2 hbuy (buyGuard_nan _),
            uniswapBuy_exec_err network f e t0 t1
              { p with maxPrice := none } r2 hbuy (buyGuard_none _)]
    | ok t =>
        rw [uniswapBuy_ok network f t t0 t1
              { p with maxPrice := some .nan } r2 hbuy (buyGuard_nan _),
            uniswapBuy_ok network f t t0 t1
              { p with maxPrice := none } r2 hbuy (buyGuard_none _)]
  · rw [uniswapSell_executed network f tx t0 t1
        { p with maxPrice := some (.num 0) } r hsell]
    exact sellGuard_zero _
  · rw [uniswapBuy_executed network f tx t0 t1
        { p with maxPrice := some (.num 0) } r2 hbuy]
    exact buyGuard_zero _
  · rw [balancerTrade_pass _ _ _ _ _ _ _ _ _ _ _ (buyGuard_zero _),
        balancerTrade_pass _ _ _ _ _ _ _ _ _ _ _ (buyGuard_none _)]
  · rw [balancerTrade_pass _ _ _ _ _ _ _ _ _ _ _ (buyGuard_nan _),
        balancerTrade_pass _ _ _ _ _ _ _ _ _ _ _ (buyGuard_none _)]
  · rw [balancerTrade_executed]
    exact buyGuard_zero _
  · rw [balancerTrade_executed]
    exact buyGuard_nan _

/-- Claim C9, witness: with maxPrice 0 the sell trade executes at observed
price 95 and bound semantics match the no-bound request exactly. -/
theorem C9_falsy_bound_witness :
    (fetchW1 "b" "q" = Except.ok (some ⟨95, []⟩)
     ∧ fetchW1 "q" "b" = Except.ok (some ⟨1 / 200, []⟩))
    ∧ ((uniswapSell "n" fetchW1 (Except.ok ⟨21000, "0xabc", 1⟩) 0 5
          { privateKey := "k", base := "b", quote := "q", amount := 1,
            maxPrice := some (.num 0), gasPrice := none }
        = uniswapSell "n" fetchW1 (Except.ok ⟨21000, "0xabc", 1⟩) 0 5
          { privateKey := "k", base := "b", quote := "q", amount := 1,
            maxPrice := none, gasPrice := none })
      ∧ (uniswapSell "n" fetchW1 (Except.ok ⟨21000, "0xabc", 1⟩) 0 5
          { privateKey := "k", base := "b", quote := "q", amount := 1,
            maxPrice := some .nan, gasPrice := none }
        = uniswapSell "n" fetchW1 (Except.ok ⟨21000, "0xabc", 1⟩) 0 5
          { privateKey := "k", base := "b", quote := "q", amount := 1,
            maxPrice := none, gasPrice := none })
      ∧ (uniswapBuy "n" fetchW1 (Except.ok ⟨21000, "0xabc", 1⟩) 0 5
          { privateKey := "k", base := "b", quote := "q", amount := 1,
            maxPrice := some (.num 0), gasPrice := none }
        = uniswapBuy "n" fetchW1 (Except.ok ⟨21000, "0xabc", 1⟩) 0 5
          { privateKey := "k", base := "b", quote := "q", amount := 1,
            maxPrice := none, gasPrice := none })
      ∧ (uniswapBuy "n" fetchW1 (Except.ok ⟨21000, "0xabc", 1⟩) 0 5
          { privateKey := "k", base := "b", quote := "q", amount := 1,
            maxPrice := some .nan, gasPrice := none }
        = uniswapBuy "n" fetchW1 (Except.ok ⟨21000, "0xabc", 1⟩) 0 5
          { privateKey := "k", base := "b", quote := "q", amount := 1,
            maxPrice := none, gasPrice := none })
      ∧ (uniswapSell "n" fetchW1 (Except.ok ⟨21000, "0xabc", 1⟩) 0 5
          { privateKey := "k", base := "b", quote := "q", amount := 1,
            maxPrice := some (.num 0), gasPrice := none }).executed = true
      ∧ (uniswapBuy "n" fetchW1 (Except.ok ⟨21000, "0xabc", 1⟩) 0 5
          { privateKey := "k", base := "b", quote := "q", amount := 1,
            maxPrice := some (.num 0), gasPrice := none }).executed = true
      ∧ (balancerTrade "n2" "e" id (fun _ _ _ => ⟨[], 10 ^ 18⟩) "h1" 0 5
          "ti" "to" 200 (some (.num 0))
        = balancerTrade "n2" "e" id (fun _ _ _ => ⟨[], 10 ^ 18⟩) "h1" 0 5
          "ti" "to" 200 none)
      ∧ (balancerTrade "n2" "e" id (fun _ _ _ => ⟨[], 10 ^ 18⟩) "h1" 0 5
          "ti" "to" 200 (some .nan)
        = balancerTrade "n2" "e" id (fun _ _ _ => ⟨[], 10 ^ 18⟩) "h1" 0 5
          "ti" "to" 200 none)
      ∧ (balancerTrade "n2" "e" id (fun _ _ _ => ⟨[], 10 ^ 18⟩) "h1" 0 5
          "ti" "to" 200 (some (.num 0))).executed = true
      ∧ (balancerTrade "n2" "e" id (fun _ _ _ => ⟨[], 10 ^ 18⟩) "h1" 0 5
          "ti" "to" 200 (some .nan)).executed = true) :=
  ⟨⟨by with_unfolding_all rfl, by with_unfolding_all rfl⟩,
    C9_falsy_bound "n" fetchW1 (Except.ok ⟨21000, "0xabc", 1⟩) 0 5
      { privateKey := "k", base := "b", quote := "q", amount := 1,
        maxPrice := none, gasPrice := none }
      ⟨95, []⟩ ⟨1 / 200, []⟩ "n2" "e" id (fun _ _ _ => ⟨[], 10 ^ 18⟩)
      "h1" "ti" "to" 200
      (by with_unfolding_all rfl) (by with_unfolding_all rfl)⟩

set_option maxRecDepth 2000 in
/-- Claim C2 (code bug): evaluating the amount conversion of the trade
handlers at the decimal amount 1000 gives the base-unit integer 1 — the
product 1000 * 1e18 = 1e21 is stringified by JavaScript in exponential
notation and parseInt stops at the exponent marker — so the round trip
returns 1e-18, which differs from 1000 by far more than one base unit,
contradicting the codec claim (and the arbitrary-precision conversion the
spec prescribes). -/
theorem C2_codec_code_bug :
    toBaseUnits 1000 = 1
    ∧ fromBaseUnits (toBaseUnits 1000) = 1 / 10 ^ 18
    ∧ ¬ (|fromBaseUnits (toBaseUnits 1000) - 1000| < 1 / 10 ^ 18) := by
  have h1 : toBaseUnits 1000 = 1 := by with_unfolding_all rfl
  have h2 : fromBaseUnits 1 = 1 / 10 ^ 18 := by with_unfolding_all rfl
  refine ⟨h1, by rw [h1, h2], ?_⟩
  rw [h1, h2, abs_of_neg (by norm_num)]
  norm_num

/-- Claim C3, counterexample: on the weighted-pool backend a rejected
trade (observed price 200, bound 100) submits nothing but also sends no
response at all, contradicting the claimed structured success-status
rejection on both backend integrations. -/
theorem C3_reject_counterexample :
    (balancerTrade "n" "e" id (fun _ _ _ => ⟨[], 10 ^ 18⟩) "hx" 0 0 "ti" "to"
      200 (some (.num 100))).response = none
    ∧ (balancerTrade "n" "e" id (fun _ _ _ => ⟨[], 10 ^ 18⟩) "hx" 0 0 "ti" "to"
      200 (some (.num 100))).executed = false := by
  with_unfolding_all decide

/-- Claim C3 (amended): on the constant-product backend a guard rejection
returns a 200 response with error text Swap price lower than maxPrice
(sell) or Swap price exceeds maxPrice (buy) plus a detail message, and no
transaction is submitted; on the weighted-pool backend a rejected trade
likewise submits nothing, but sends no response at all (the handler only
logs the rejection). -/
theorem C3_reject_amended (network : String)
    (f : String → String → Except JsError (Option Route))
    (tx : Except JsError TxObj) (t0 t1 : ℤ) (p : TradeParams) (r r2 : Route)
    (net env : String) (erc : String → String)
    (gs : String → String → ℤ → SwapsResult) (hsh tin tout : String)
    (a : ℚ) (m2 : Option JSNum)
    (hsell : f p.base p.quote = Except.ok (some r))
    (hbuy : f p.quote p.base = Except.ok (some r2))
    (hgs : sellGuard (toSignificant8 r.midPrice) p.maxPrice = false)
    (hgb : buyGuard (toSignificant8 r2.midPrice⁻¹) p.maxPrice = false)
    (hgbal : buyGuard ((toBaseUnits a : ℚ)
        / (gs (erc tin) (erc tout) (toBaseUnits a)).expectedOut) m2
        = false) :
    uniswapSell network f tx t0 t1 p
      = ⟨true, false, some p.privateKey, some ⟨200,
          [("error", .str swapLessThanMaxPriceError),
           ("message", .interp "Swap price " (toSignificant8 r.midPrice)
              " lower than maxPrice " p.maxPrice)]⟩⟩
    ∧ uniswapBuy network f tx t0 t1 p
      = ⟨true, false, some p.privateKey, some ⟨200,
          [("error", .str swapMoreThanMaxPriceError),
           ("message", .interp "Swap price " (toSignificant8 r2.midPrice⁻¹)
              " exceeds maxPrice " p.maxPrice)]⟩⟩
    ∧ balancerTrade net env erc gs hsh t0 t1 tin tout a m2
      = ⟨true, false, some ("0x" ++ env), none⟩ :=
  ⟨uniswapSell_reject network f tx t0 t1 p r hsell hgs,
   uniswapBuy_reject network f tx t0 t1 p r2 hbuy hgb,
   balancerTrade_reject net env erc gs hsh t0 t1 tin tout a m2 hgbal⟩

/-- Claim C3, witness: the amended rejection law at bound 100 with
observed sell price 95 and observed buy price 200 (the scenario of the
spec), and a weighted-pool price of 200. -/
theorem C3_reject_amended_witness :
    (fetchW1 "b" "q" = Except.ok (some ⟨95, []⟩)
     ∧ fetchW1 "q" "b" = Except.ok (some ⟨1 / 200, []⟩)
     ∧ sellGuard (toSignificant8 95) (some (.num 100)) = false
     ∧ buyGuard (toSignificant8 ((1 : ℚ) / 200)⁻¹) (some (.num 100)) = false
     ∧ buyGuard ((toBaseUnits 200 : ℚ)
         / ((fun (_ _ : String) (_ : ℤ) => (⟨[], 10 ^ 18⟩ : SwapsResult))
             (id "ti") (id "to") (toBaseUnits 200)).expectedOut)
         (some (.num 100)) = false)
    ∧ (uniswapSell "n" fetchW1 (Except.ok ⟨21000, "0xabc", 1⟩) 0 5
        { privateKey := "k", base := "b", quote := "q", amount := 1,
          maxPrice := some (.num 100), gasPrice := none }
        = ⟨true, false, some "k", some ⟨200,
            [("error", .str swapLessThanMaxPriceError),
             ("message", .interp "Swap price " (toSignificant8 95)
                " lower than maxPrice " (some (.num 100)))]⟩⟩
      ∧ uniswapBuy "n" fetchW1 (Except.ok ⟨21000, "0xabc", 1⟩) 0 5
        { privateKey := "k", base := "b", quote := "q", amount := 1,
          maxPrice := some (.num 100), gasPrice := none }
        = ⟨true, false, some "k", some ⟨200,
            [("error", .str swapMoreThanMaxPriceError),
             ("message", .interp "Swap price "
                (toSignificant8 ((1 : ℚ) / 200)⁻¹)
                " exceeds maxPrice " (some (.num 100)))]⟩⟩
      ∧ balancerTrade "n2" "e" id (fun _ _ _ => ⟨[], 10 ^ 18⟩) "h1" 0 5
          "ti" "to" 200 (some (.num 100))
        = ⟨true, false, some ("0x" ++ "e"), none⟩) :=
  ⟨⟨by with_unfolding_all rfl, by with_unfolding_all rfl,
    by with_unfolding_all decide, by with_unfolding_all decide,
    by with_unfolding_all decide⟩,
   C3_reject_amended "n" fetchW1 (Except.ok ⟨21000, "0xabc", 1⟩) 0 5
     { privateKey := "k", base := "b", quote := "q", amount := 1,
       maxPrice := some (.num 100), gasPrice := none }
     ⟨95, []⟩ ⟨1 / 200, []⟩ "n2" "e" id (fun _ _ _ => ⟨[], 10 ^ 18⟩)
     "h1" "ti" "to" 200 (some (.num 100))
     (by with_unfolding_all rfl) (by with_unfolding_all rfl)
     (by with_unfolding_all decide) (by with_unfolding_all decide)
     (by with_unfolding_all decide)⟩

/-- Claim C4, counterexample: a no-route outcome on the sell trade
endpoint is not answered with no_pool_available; the null route raises a
TypeError that the catch block classifies into a 500 operation_error
response, so a classified server-error response is produced. -/
theorem C4_no_route_counterexample :
    (uniswapSell "n" (fun _ _ => Except.ok none)
      (Except.ok ⟨21000, "0xabc", 1⟩) 0 0
      { privateKey := "k", base := "b", quote := "q", amount := 1,
        maxPrice := none, gasPrice := none }).response
      = some ⟨500, [("error", .str operationErrorCode),
                    ("message", .jerr ⟨none⟩)]⟩ := by
  rw [uniswapSell_no_route "n" (fun _ _ => Except.ok none)
    (Except.ok ⟨21000, "0xabc", 1⟩) 0 0
    { privateKey := "k", base := "b", quote := "q", amount := 1,
      maxPrice := none, gasPrice := none } rfl]
  rfl

/-- Claim C4 (amended): on the quote endpoints a no-route outcome yields
exactly the success-status no_pool_available response with empty message,
and no guard or execution step runs; on the trade endpoints a null route
instead raises a TypeError that is classified into a 500 operation_error
response (the executor is still never invoked). -/
theorem C4_no_route_amended (network : String)
    (f : String → String → Except JsError (Option Route))
    (tx : Except JsError TxObj) (t0 t1 : ℤ) (p : TradeParams)
    (hq : f p.base p.quote = Except.ok none)
    (hq2 : f p.quote p.base = Except.ok none) :
    uniswapSellPrice network f t0 t1 p.base p.quote p.amount
      = ⟨true, false, none, some noPoolResponse⟩
    ∧ uniswapBuyPrice network f t0 t1 p.base p.quote p.amount
      = ⟨true, false, none, some noPoolResponse⟩
    ∧ uniswapSell network f tx t0 t1 p
      = ⟨true, false, some p.privateKey, some (classifiedResponse ⟨none⟩)⟩
    ∧ uniswapBuy network f tx t0 t1 p
      = ⟨true, false, some p.privateKey, some (classifiedResponse ⟨none⟩)⟩
    ∧ noPoolResponse.status = 200
    ∧ (classifiedResponse ⟨none⟩).status = 500 :=
  ⟨uniswapSellPrice_no_route network f t0 t1 p.base p.quote p.amount hq,
   uniswapBuyPrice_no_route network f t0 t1 p.base p.quote p.amount hq2,
   uniswapSell_no_route network f tx t0 t1 p hq,
   uniswapBuy_no_route network f tx t0 t1 p hq2,
   rfl, rfl⟩

/-- Claim C4, witness: the amended no-route law evaluated with a route
oracle that always reports no route. -/
theorem C4_no_route_amended_witness :
    ((fun (_ _ : String) => (Except.ok none : Except JsError (Option Route)))
        "b" "q" = Except.ok none
     ∧ (fun (_ _ : String) => (Except.ok none : Except JsError (Option Route)))
        "q" "b" = Except.ok none)
    ∧ (uniswapSellPrice "n"
        (fun _ _ => Except.ok none) 0 5 "b" "q" 1
        = ⟨true, false, none, some noPoolResponse⟩
      ∧ uniswapBuyPrice "n"
        (fun _ _ => Except.ok none) 0 5 "b" "q" 1
        = ⟨true, false, none, some noPoolResponse⟩
      ∧ uniswapSell "n" (fun _ _ => Except.ok none)
          (Except.ok ⟨21000, "0xabc", 1⟩) 0 5
          { privateKey := "k", base := "b", quote := "q", amount := 1,
            maxPrice := none, gasPrice := none }
        = ⟨true, false, some "k", some (classifiedResponse ⟨none⟩)⟩
      ∧ uniswapBuy "n" (fun _ _ => Except.ok none)
          (Except.ok ⟨21000, "0xabc", 1⟩) 0 5
          { privateKey := "k", base := "b", quote := "q", amount := 1,
            maxPrice := none, gasPrice := none }
        = ⟨true, false, some "k", some (classifiedResponse ⟨none⟩)⟩
      ∧ noPoolResponse.status = 200
      ∧ (classifiedResponse ⟨none⟩).status = 500) :=
  ⟨⟨rfl, rfl⟩,
   C4_no_route_amended "n" (fun _ _ => Except.ok none)
     (Except.ok ⟨21000, "0xabc", 1⟩) 0 5
     { privateKey := "k", base := "b", quote := "q", amount := 1,
       maxPrice := none, gasPrice := none }
     rfl rfl⟩

/-- Helper: the classifier surfaces a present non-empty reason verbatim. -/
theorem classifyReason_truthy (e : JsError) (rs : String)
    (hrs : e.reason = some rs) (hne : rs ≠ "") : classifyReason e = rs := by
  simp [classifyReason, hrs, hne]

/-- Helper: the classifier falls back to the generic code when the reason
field is absent or empty. -/
theorem classifyReason_falsy (e : JsError)
    (h0 : e.reason = none ∨ e.reason = some "") :
    classifyReason e = operationErrorCode := by
  rcases h0 with h | h <;> simp [classifyReason, h]

/-- Claim C5 (confirmed): for the buy operations the route is queried with
tokenIn = quote and tokenOut = base — the handlers depend on the route
oracle only through its value at (quote, base) — and the resulting
marginal price is inverted before the guard comparison and before display,
so every price compared against a bound or returned to the client is in
quote-units-per-base-unit terms; on the weighted-pool trade the compared
and displayed price is the base-unit input divided by the expected output,
which is likewise in spent-token-per-bought-token terms, and the handler
depends on the swaps oracle only through the queried (tokenIn, tokenOut)
pair. -/
theorem C5_direction_inversion (network : String)
    (f g : String → String → Except JsError (Option Route))
    (tx : Except JsError TxObj) (t : TxObj) (t0 t1 : ℤ) (p : TradeParams)
    (r : Route)
    (net env : String) (erc : String → String)
    (gs gs2 : String → String → ℤ → SwapsResult) (hsh tin tout : String)
    (a : ℚ) (m : Option JSNum)
    (hfg : f p.quote p.base = g p.quote p.base)
    (hr : f p.quote p.base = Except.ok (some r))
    (hg : buyGuard (toSignificant8 r.midPrice⁻¹) p.maxPrice = true)
    (hgs2 : gs (erc tin) (erc tout) (toBaseUnits a)
        = gs2 (erc tin) (erc tout) (toBaseUnits a))
    (hgbal : buyGuard ((toBaseUnits a : ℚ)
        / (gs (erc tin) (erc tout) (toBaseUnits a)).expectedOut) m
        = true) :
    (uniswapBuyPrice network f t0 t1 p.base p.quote p.amount
      = uniswapBuyPrice network g t0 t1 p.base p.quote p.amount)
    ∧ (uniswapBuy network f tx t0 t1 p = uniswapBuy network g tx t0 t1 p)
    ∧ uniswapBuyPrice network f t0 t1 p.base p.quote p.amount
      = ⟨true, false, none, some ⟨200,
          [("network", .str network), ("timestamp", .int t0),
           ("latency", .int (latency t0 t1)),
           ("base", .str p.base), ("quote", .str p.quote),
           ("amount", .rat p.amount),
           ("expectedIn", .rat (p.amount * toSignificant8 r.midPrice⁻¹)),
           ("price", .rat (toSignificant8 r.midPrice⁻¹)),
           ("swaps", .list r.path)]⟩⟩
    ∧ (uniswapBuy network f tx t0 t1 p).executed
      = buyGuard (toSignificant8 r.midPrice⁻¹) p.maxPrice
    ∧ uniswapBuy network f (Except.ok t) t0 t1 p
      = ⟨true, true, some p.privateKey, some ⟨200,
          [("network", .str network), ("timestamp", .int t0),
           ("latency", .int (latency t0 t1)),
           ("base", .str p.base), ("quote", .str p.quote),
           ("amount", .rat p.amount),
           ("expectedIn", .rat (p.amount * toSignificant8 r.midPrice⁻¹)),
           ("price", .rat (toSignificant8 r.midPrice⁻¹)),
           ("gasUsed", .int t.gasUsed),
           ("txHash", .str t.transactionHash),
           ("status", .int t.status)]⟩⟩
    ∧ (balancerTrade net env erc gs hsh t0 t1 tin tout a m
      = balancerTrade net env erc gs2 hsh t0 t1 tin tout a m)
    ∧ (balancerTrade net env erc gs hsh t0 t1 tin tout a m).executed
      = buyGuard ((toBaseUnits a : ℚ)
          / (gs (erc tin) (erc tout) (toBaseUnits a)).expectedOut) m
    ∧ balancerTrade net env erc gs hsh t0 t1 tin tout a m
      = ⟨true, true, some ("0x" ++ env), some ⟨200,
          [("network", .str net), ("timestamp", .int t0),
           ("latency", .int (latency t0 t1)),
           ("tokenIn", .str tin), ("tokenOut", .str tout),
           ("amount", .rat a),
           ("expectedOut", .rat ((gs (erc tin) (erc tout)
               (toBaseUnits a)).expectedOut / denomMultiplier)),
           ("price", .rat ((toBaseUnits a : ℚ)
               / (gs (erc tin) (erc tout) (toBaseUnits a)).expectedOut)),
           ("txHash", .str hsh)]⟩⟩ := by
  refine ⟨?_, ?_, ?_, ?_, ?_, ?_, ?_, ?_⟩
  · unfold uniswapBuyPrice
    rw [hfg]
  · unfold uniswapBuy
    rw [hfg]
  · exact uniswapBuyPrice_route network f t0 t1 p.base p.quote p.amount r hr
  · exact uniswapBuy_executed network f tx t0 t1 p r hr
  · exact uniswapBuy_ok network f t t0 t1 p r hr hg
  · simp only [balancerTrade, hgs2]
  · exact balancerTrade_executed net env erc gs hsh t0 t1 tin tout a m
  · exact balancerTrade_pass net env erc gs hsh t0 t1 tin tout a m hgbal

/-- Claim C5, witness: the inversion law evaluated on the route (q, b)
with midPrice 1/200, whose inverted price 200 is the one displayed, and a
weighted-pool trade with base-unit price 1. -/
theorem C5_direction_inversion_witness :
    (fetchW1 "q" "b" = fetchW1 "q" "b"
     ∧ fetchW1 "q" "b" = Except.ok (some ⟨1 / 200, []⟩)
     ∧ buyGuard (toSignificant8 ((1 : ℚ) / 200)⁻¹) none = true
     ∧ (fun (_ _ : String) (_ : ℤ) => (⟨[], 10 ^ 18⟩ : SwapsResult))
         (id "ti") (id "to") (toBaseUnits 1)
       = (fun (_ _ : String) (_ : ℤ) => (⟨[], 10 ^ 18⟩ : SwapsResult))
         (id "ti") (id "to") (toBaseUnits 1)
     ∧ buyGuard ((toBaseUnits 1 : ℚ)
         / ((fun (_ _ : String) (_ : ℤ) => (⟨[], 10 ^ 18⟩ : SwapsResult))
             (id "ti") (id "to") (toBaseUnits 1)).expectedOut) none = true)
    ∧ ((uniswapBuyPrice "n" fetchW1 0 5 "b" "q" 1
        = uniswapBuyPrice "n" fetchW1 0 5 "b" "q" 1)
      ∧ (uniswapBuy "n" fetchW1 (Except.ok ⟨21000, "0xabc", 1⟩) 0 5
          { privateKey := "k", base := "b", quote := "q", amount := 1,
            maxPrice := none, gasPrice := none }
        = uniswapBuy "n" fetchW1 (Except.ok ⟨21000, "0xabc", 1⟩) 0 5
          { privateKey := "k", base := "b", quote := "q", amount := 1,
            maxPrice := none, gasPrice := none })
      ∧ uniswapBuyPrice "n" fetchW1 0 5 "b" "q" 1
        = ⟨true, false, none, some ⟨200,
            [("network", .str "n"), ("timestamp", .int 0),
             ("latency", .int (latency 0 5)),
             ("base", .str "b"), ("quote", .str "q"),
             ("amount", .rat 1),
             ("expectedIn", .rat (1 * toSignificant8 ((1 : ℚ) / 200)⁻¹)),
             ("price", .rat (toSignificant8 ((1 : ℚ) / 200)⁻¹)),
             ("swaps", .list [])]⟩⟩
      ∧ (uniswapBuy "n" fetchW1 (Except.ok ⟨21000, "0xabc", 1⟩) 0 5
          { privateKey := "k", base := "b", quote := "q", amount := 1,
            maxPrice := none, gasPrice := none }).executed
        = buyGuard (toSignificant8 ((1 : ℚ) / 200)⁻¹) none
      ∧ uniswapBuy "n" fetchW1 (Except.ok ⟨21000, "0xabc", 1⟩) 0 5
          { privateKey := "k", base := "b", quote := "q", amount := 1,
            maxPrice := none, gasPrice := none }
        = ⟨true, true, some "k", some ⟨200,
            [("network", .str "n"), ("timestamp", .int 0),
             ("latency", .int (latency 0 5)),
             ("base", .str "b"), ("quote", .str "q"),
             ("amount", .rat 1),
             ("expectedIn", .rat (1 * toSignificant8 ((1 : ℚ) / 200)⁻¹)),
             ("price", .rat (toSignificant8 ((1 : ℚ) / 200)⁻¹)),
             ("gasUsed", .int 21000),
             ("txHash", .str "0xabc"),
             ("status", .int 1)]⟩⟩
      ∧ (balancerTrade "n2" "e" id (fun _ _ _ => ⟨[], 10 ^ 18⟩) "h1" 0 5
          "ti" "to" 1 none
        = balancerTrade "n2" "e" id (fun _ _ _ => ⟨[], 10 ^ 18⟩) "h1" 0 5
          "ti" "to" 1 none)
      ∧ (balancerTrade "n2" "e" id (fun _ _ _ => ⟨[], 10 ^ 18⟩) "h1" 0 5
          "ti" "to" 1 none).executed
        = buyGuard ((toBaseUnits 1 : ℚ)
            / ((fun (_ _ : String) (_ : ℤ) => (⟨[], 10 ^ 18⟩ : SwapsResult))
                (id "ti") (id "to") (toBaseUnits 1)).expectedOut) none
      ∧ balancerTrade "n2" "e" id (fun _ _ _ => ⟨[], 10 ^ 18⟩) "h1" 0 5
          "ti" "to" 1 none
        = ⟨true, true, some ("0x" ++ "e"), some ⟨200,
            [("network", .str "n2"), ("timestamp", .int 0),
             ("latency", .int (latency 0 5)),
             ("tokenIn", .str "ti"), ("tokenOut", .str "to"),
             ("amount", .rat 1),
             ("expectedOut", .rat (((fun (_ _ : String) (_ : ℤ) =>
                 (⟨[], 10 ^ 18⟩ : SwapsResult)) (id "ti") (id "to")
                 (toBaseUnits 1)).expectedOut / denomMultiplier)),
             ("price", .rat ((toBaseUnits 1 : ℚ)
                 / ((fun (_ _ : String) (_ : ℤ) =>
                     (⟨[], 10 ^ 18⟩ : SwapsResult)) (id "ti") (id "to")
                     (toBaseUnits 1)).expectedOut)),
             ("txHash", .str "h1")]⟩⟩) :=
  ⟨⟨rfl, by with_unfolding_all rfl, rfl, rfl, rfl⟩,
   C5_direction_inversion "n" fetchW1 fetchW1
     (Except.ok ⟨21000, "0xabc", 1⟩) ⟨21000, "0xabc", 1⟩ 0 5
     { privateKey := "k", base := "b", quote := "q", amount := 1,
       maxPrice := none, gasPrice := none }
     ⟨1 / 200, []⟩ "n2" "e" id (fun _ _ _ => ⟨[], 10 ^ 18⟩)
     (fun _ _ _ => ⟨[], 10 ^ 18⟩) "h1" "ti" "to" 1 none
     rfl (by with_unfolding_all rfl) rfl rfl rfl⟩

/-- Claim C6, counterexample: on the weighted-pool trade endpoint two
textually identical requests sign with different wallets when the
ETH_PRIVATE_KEY environment variable differs, so the signing key is not
constructed from the request (which carries no privateKey parameter at
all), contradicting the per-request-signer claim for that backend. -/
theorem C6_signer_counterexample :
    (balancerTrade "n" "aa" id (fun _ _ _ => ⟨[], 10 ^ 18⟩) "hx" 0 0 "ti"
      "to" 1 none).walletKey = some "0xaa"
    ∧ (balancerTrade "n" "bb" id (fun _ _ _ => ⟨[], 10 ^ 18⟩) "hx" 0 0 "ti"
      "to" 1 none).walletKey = some "0xbb"
    ∧ ("0xaa" : String) ≠ "0xbb" := by
  refine ⟨?_, ?_, by decide⟩
  · rw [balancerTrade_wallet]
    with_unfolding_all rfl
  · rw [balancerTrade_wallet]
    with_unfolding_all rfl

/-- Claim C6 (amended): on the constant-product backend the wallet that
signs a trade is constructed from the privateKey supplied in that request;
on the weighted-pool backend it is instead always constructed from the
ETH_PRIVATE_KEY environment variable prefixed with 0x, whatever the
request contains. -/
theorem C6_signer_amended (network : String)
    (f : String → String → Except JsError (Option Route))
    (tx : Except JsError TxObj) (t0 t1 : ℤ) (p : TradeParams)
    (net env : String) (erc : String → String)
    (gs : String → String → ℤ → SwapsResult) (hsh tin tout : String)
    (a : ℚ) (m : Option JSNum) :
    (uniswapSell network f tx t0 t1 p).walletKey = some p.privateKey
    ∧ (uniswapBuy network f tx t0 t1 p).walletKey = some p.privateKey
    ∧ (balancerTrade net env erc gs hsh t0 t1 tin tout a m).walletKey
      = some ("0x" ++ env) :=
  ⟨uniswapSell_wallet network f tx t0 t1 p,
   uniswapBuy_wallet network f tx t0 t1 p,
   balancerTrade_wallet net env erc gs hsh t0 t1 tin tout a m⟩

/-- Claim C7, counterexample: a failure whose reason field is present but
empty is classified as the generic operation_error code instead of
surfacing the (empty) reason verbatim, so the claim as stated fails for
present-but-falsy reasons. -/
theorem C7_classify_counterexample :
    (uniswapSell "n" (fun _ _ => Except.ok (some ⟨95, []⟩))
      (Except.error ⟨some ""⟩) 0 0
      { privateKey := "k", base := "b", quote := "q", amount := 1,
        maxPrice := none, gasPrice := none }).response
      = some ⟨500, [("error", .str operationErrorCode),
                    ("message", .jerr ⟨some ""⟩)]⟩
    ∧ (⟨some ""⟩ : JsError).reason.isSome = true
    ∧ operationErrorCode ≠ "" := by
  refine ⟨?_, rfl, by decide⟩
  rw [uniswapSell_exec_err "n" (fun _ _ => Except.ok (some ⟨95, []⟩))
    ⟨some ""⟩ 0 0
    { privateKey := "k", base := "b", quote := "q", amount := 1,
      maxPrice := none, gasPrice := none } ⟨95, []⟩ rfl (sellGuard_none _)]
  with_unfolding_all rfl

/-- Claim C7 (amended): every failure raised inside a constant-product
pipeline handler is answered with a 500 response whose message carries the
raw failure, and whose error field is the failure reason when that field
is present and non-empty (truthy), falling back to the generic
operation_error code when the reason is absent or empty. -/
theorem C7_classify_amended (network : String)
    (f f2 : String → String → Except JsError (Option Route))
    (t0 t1 : ℤ) (p : TradeParams) (r : Route)
    (e e0 : JsError) (rs : String)
    (hr : f p.base p.quote = Except.ok (some r))
    (hg : sellGuard (toSignificant8 r.midPrice) p.maxPrice = true)
    (hre : f2 p.base p.quote = Except.error e)
    (hrs : e.reason = some rs) (hne : rs ≠ "")
    (h0 : e0.reason = none ∨ e0.reason = some "") :
    (uniswapSell network f (Except.error e) t0 t1 p).response
      = some ⟨500, [("error", .str rs), ("message", .jerr e)]⟩
    ∧ (uniswapSell network f2 (Except.ok ⟨21000, "0xabc", 1⟩) t0 t1
        p).response
      = some ⟨500, [("error", .str rs), ("message", .jerr e)]⟩
    ∧ (uniswapSellPrice network f2 t0 t1 p.base p.quote p.amount).response
      = some ⟨500, [("error", .str rs), ("message", .jerr e)]⟩
    ∧ (uniswapSell network f (Except.error e0) t0 t1 p).response
      = some ⟨500, [("error", .str operationErrorCode),
                    ("message", .jerr e0)]⟩ := by
  refine ⟨?_, ?_, ?_, ?_⟩
  · rw [uniswapSell_exec_err network f e t0 t1 p r hr hg]
    simp only [classifiedResponse, classifyReason_truthy e rs hrs hne]
  · rw [uniswapSell_fetch_err network f2 (Except.ok ⟨21000, "0xabc", 1⟩)
      t0 t1 p e hre]
    simp only [classifiedResponse, classifyReason_truthy e rs hrs hne]
  · rw [uniswapSellPrice_fetch_err network f2 t0 t1 p.base p.quote
      p.amount e hre]
    simp only [classifiedResponse, classifyReason_truthy e rs hrs hne]
  · rw [uniswapSell_exec_err network f e0 t0 t1 p r hr hg]
    simp only [classifiedResponse, classifyReason_falsy e0 h0]

/-- Claim C7, witness: the amended classification law evaluated on a
revert reason string, and on a reason-free failure. -/
theorem C7_classify_amended_witness :
    (fetchW1 "b" "q" = Except.ok (some ⟨95, []⟩)
     ∧ sellGuard (toSignificant8 95) none = true
     ∧ (fun (_ _ : String) =>
         (Except.error ⟨some "execution reverted"⟩
           : Except JsError (Option Route))) "b" "q"
       = Except.error ⟨some "execution reverted"⟩
     ∧ (⟨some "execution reverted"⟩ : JsError).reason
       = some "execution reverted"
     ∧ ("execution reverted" : String) ≠ ""
     ∧ ((⟨none⟩ : JsError).reason = none
        ∨ (⟨none⟩ : JsError).reason = some ""))
    ∧ ((uniswapSell "n" fetchW1 (Except.error ⟨some "execution reverted"⟩)
          0 5 { privateKey := "k", base := "b", quote := "q", amount := 1,
                maxPrice := none, gasPrice := none }).response
        = some ⟨500, [("error", .str "execution reverted"),
                      ("message", .jerr ⟨some "execution reverted"⟩)]⟩
      ∧ (uniswapSell "n"
          (fun _ _ => Except.error ⟨some "execution reverted"⟩)
          (Except.ok ⟨21000, "0xabc", 1⟩) 0 5
          { privateKey := "k", base := "b", quote := "q", amount := 1,
            maxPrice := none, gasPrice := none }).response
        = some ⟨500, [("error", .str "execution reverted"),
                      ("message", .jerr ⟨some "execution reverted"⟩)]⟩
      ∧ (uniswapSellPrice "n"
          (fun _ _ => Except.error ⟨some "execution reverted"⟩)
          0 5 "b" "q" 1).response
        = some ⟨500, [("error", .str "execution reverted"),
                      ("message", .jerr ⟨some "execution reverted"⟩)]⟩
      ∧ (uniswapSell "n" fetchW1 (Except.error ⟨none⟩) 0 5
          { privateKey := "k", base := "b", quote := "q", amount := 1,
            maxPrice := none, gasPrice := none }).response
        = some ⟨500, [("error", .str operationErrorCode),
                      ("message", .jerr ⟨none⟩)]⟩) :=
  ⟨⟨by with_unfolding_all rfl, rfl, rfl, rfl, by decide, Or.inl rfl⟩,
   C7_classify_amended "n" fetchW1
     (fun _ _ => Except.error ⟨some "execution reverted"⟩) 0 5
     { privateKey := "k", base := "b", quote := "q", amount := 1,
       maxPrice := none, gasPrice := none }
     ⟨95, []⟩ ⟨some "execution reverted"⟩ ⟨none⟩ "execution reverted"
     (by with_unfolding_all rfl) (sellGuard_none _) rfl rfl
     (by decide) (Or.inl rfl)⟩

/-- Claim C8, counterexample: a guard rejection produces a response (so
one was sent) that carries no network field — nor timestamp or latency —
contradicting the claim that every JSON response includes them. -/
theorem C8_metadata_counterexample :
    (uniswapSell "n" fetchW1 (Except.ok ⟨21000, "0xabc", 1⟩) 0 5
      { privateKey := "k", base := "b", quote := "q", amount := 1,
        maxPrice := some (.num 100), gasPrice := none }).field "network"
      = none
    ∧ (uniswapSell "n" fetchW1 (Except.ok ⟨21000, "0xabc", 1⟩) 0 5
      { privateKey := "k", base := "b", quote := "q", amount := 1,
        maxPrice := some (.num 100),
        gasPrice := none }).response.isSome = true := by
  have hg : sellGuard (toSignificant8 95) (some (.num 100)) = false := by
    with_unfolding_all decide
  rw [uniswapSell_reject "n" fetchW1 (Except.ok ⟨21000, "0xabc", 1⟩) 0 5
    { privateKey := "k", base := "b", quote := "q", amount := 1,
      maxPrice := some (.num 100), gasPrice := none } ⟨95, []⟩
    (by with_unfolding_all rfl) hg]
  exact ⟨rfl, rfl⟩

/-- Claim C8 (amended): every success-path response (a quote with a route
found, or a trade success on either backend) includes network, timestamp
equal to the request start time, and latency computed at formatting time,
and latency is non-negative whenever the formatting-time clock read is at
least the start read; guard-rejection, no-route and classified-error
responses instead carry only error and message fields. -/
theorem C8_metadata_amended (network : String)
    (f : String → String → Except JsError (Option Route))
    (t : TxObj) (tx : Except JsError TxObj) (t0 t1 : ℤ)
    (p p2 : TradeParams) (r r2 r3 : Route) (e : JsError)
    (net env : String) (erc : String → String)
    (gs : String → String → ℤ → SwapsResult) (hsh tin tout : String)
    (a : ℚ) (m : Option JSNum)
    (hr : f p.base p.quote = Except.ok (some r))
    (hrb : f p.quote p.base = Except.ok (some r2))
    (hg : sellGuard (toSignificant8 r.midPrice) p.maxPrice = true)
    (hgb : buyGuard (toSignificant8 r2.midPrice⁻¹) p.maxPrice = true)
    (hrj : f p2.base p2.quote = Except.ok (some r3))
    (hgf : sellGuard (toSignificant8 r3.midPrice) p2.maxPrice = false)
    (hbal : buyGuard ((toBaseUnits a : ℚ)
        / (gs (erc tin) (erc tout) (toBaseUnits a)).expectedOut) m = true)
    (ht : t0 ≤ t1) :
    ((uniswapSellPrice network f t0 t1 p.base p.quote p.amount).field
        "network" = some (.str network)
      ∧ (uniswapSellPrice network f t0 t1 p.base p.quote p.amount).field
        "timestamp" = some (.int t0)
      ∧ (uniswapSellPrice network f t0 t1 p.base p.quote p.amount).field
        "latency" = some (.int (latency t0 t1)))
    ∧ ((uniswapBuyPrice network f t0 t1 p.base p.quote p.amount).field
        "network" = some (.str network)
      ∧ (uniswapBuyPrice network f t0 t1 p.base p.quote p.amount).field
        "timestamp" = some (.int t0)
      ∧ (uniswapBuyPrice network f t0 t1 p.base p.quote p.amount).field
        "latency" = some (.int (latency t0 t1)))
    ∧ ((uniswapSell network f (Except.ok t) t0 t1 p).field "network"
        = some (.str network)
      ∧ (uniswapSell network f (Except.ok t) t0 t1 p).field "timestamp"
        = some (.int t0)
      ∧ (uniswapSell network f (Except.ok t) t0 t1 p).field "latency"
        = some (.int (latency t0 t1)))
    ∧ ((uniswapBuy network f (Except.ok t) t0 t1 p).field "network"
        = some (.str network)
      ∧ (uniswapBuy network f (Except.ok t) t0 t1 p).field "timestamp"
        = some (.int t0)
      ∧ (uniswapBuy network f (Except.ok t) t0 t1 p).field "latency"
        = some (.int (latency t0 t1)))
    ∧ ((balancerPrice net erc gs t0 t1 tin tout a).field "network"
        = some (.str net)
      ∧ (balancerPrice net erc gs t0 t1 tin tout a).field "timestamp"
        = some (.int t0)
      ∧ (balancerPrice net erc gs t0 t1 tin tout a).field "latency"
        = some (.int (latency t0 t1)))
    ∧ ((balancerTrade net env erc gs hsh t0 t1 tin tout a m).field
        "network" = some (.str net)
      ∧ (balancerTrade net env erc gs hsh t0 t1 tin tout a m).field
        "timestamp" = some (.int t0)
      ∧ (balancerTrade net env erc gs hsh t0 t1 tin tout a m).field
        "latency" = some (.int (latency t0 t1)))
    ∧ 0 ≤ latency t0 t1
    ∧ (uniswapSell network f tx t0 t1 p2).field "network" = none
    ∧ noPoolResponse.body.lookup "network" = none
    ∧ (classifiedResponse e).body.lookup "network" = none := by
  have hsA := uniswapSellPrice_route network f t0 t1 p.base p.quote
    p.amount r hr
  have hsB := uniswapBuyPrice_route network f t0 t1 p.base p.quote
    p.amount r2 hrb
  have hsC := uniswapSell_ok network f t t0 t1 p r hr hg
  have hsD := uniswapBuy_ok network f t t0 t1 p r2 hrb hgb
  have hsF := balancerTrade_pass net env erc gs hsh t0 t1 tin tout a m hbal
  have hsH := uniswapSell_reject network f tx t0 t1 p2 r3 hrj hgf
  have fld : ∀ (o : Outcome) (rsp : Response) (k : String),
      o.response = some rsp → o.field k = rsp.body.lookup k := by
    intro o rsp k ho
    simp [Outcome.field, ho]
  refine ⟨⟨?_, ?_, ?_⟩, ⟨?_, ?_, ?_⟩, ⟨?_, ?_, ?_⟩, ⟨?_, ?_, ?_⟩,
          ⟨?_, ?_, ?_⟩, ⟨?_, ?_, ?_⟩, ?_, ?_, ?_, ?_⟩
  · rw [fld _ _ _ (by rw [hsA])]; with_unfolding_all rfl
  · rw [fld _ _ _ (by rw [hsA])]; with_unfolding_all rfl
  · rw [fld _ _ _ (by rw [hsA])]; with_unfolding_all rfl
  · rw [fld _ _ _ (by rw [hsB])]; with_unfolding_all rfl
  · rw [fld _ _ _ (by rw [hsB])]; with_unfolding_all rfl
  · rw [fld _ _ _ (by rw [hsB])]; with_unfolding_all rfl
  · rw [fld _ _ _ (by rw [hsC])]; with_unfolding_all rfl
  · rw [fld _ _ _ (by rw [hsC])]; with_unfolding_all rfl
  · rw [fld _ _ _ (by rw [hsC])]; with_unfolding_all rfl
  · rw [fld _ _ _ (by rw [hsD])]; with_unfolding_all rfl
  · rw [fld _ _ _ (by rw [hsD])]; with_unfolding_all rfl
  · rw [fld _ _ _ (by rw [hsD])]; with_unfolding_all rfl
  · with_unfolding_all rfl
  · with_unfolding_all rfl
  · with_unfolding_all rfl
  · rw [fld _ _ _ (by rw [hsF])]; with_unfolding_all rfl
  · rw [fld _ _ _ (by rw [hsF])]; with_unfolding_all rfl
  · rw [fld _ _ _ (by rw [hsF])]; with_unfolding_all rfl
  · unfold latency
    omega
  · rw [fld _ _ _ (by rw [hsH])]; with_unfolding_all rfl
  · with_unfolding_all rfl
  · with_unfolding_all rfl

/-- Claim C8, witness: the amended metadata law evaluated on concrete
requests with start time 0 and formatting time 5. -/
theorem C8_metadata_amended_witness :
    (fetchW1 "b" "q" = Except.ok (some ⟨95, []⟩)
     ∧ fetchW1 "q" "b" = Except.ok (some ⟨1 / 200, []⟩)
     ∧ sellGuard (toSignificant8 95) none = true
     ∧ buyGuard (toSignificant8 ((1 : ℚ) / 200)⁻¹) none = true
     ∧ sellGuard (toSignificant8 95) (some (.num 100)) = false
     ∧ buyGuard ((toBaseUnits 1 : ℚ)
         / ((fun (_ _ : String) (_ : ℤ) => (⟨[], 10 ^ 18⟩ : SwapsResult))
             (id "ti") (id "to") (toBaseUnits 1)).expectedOut) none = true
     ∧ (0 : ℤ) ≤ 5)
    ∧ (((uniswapSellPrice "n" fetchW1 0 5 "b" "q" 1).field "network"
        = some (.str "n")
      ∧ (uniswapSellPrice "n" fetchW1 0 5 "b" "q" 1).field "timestamp"
        = some (.int 0)
      ∧ (uniswapSellPrice "n" fetchW1 0 5 "b" "q" 1).field "latency"
        = some (.int (latency 0 5)))
    ∧ ((uniswapBuyPrice "n" fetchW1 0 5 "b" "q" 1).field "network"
        = some (.str "n")
      ∧ (uniswapBuyPrice "n" fetchW1 0 5 "b" "q" 1).field "timestamp"
        = some (.int 0)
      ∧ (uniswapBuyPrice "n" fetchW1 0 5 "b" "q" 1).field "latency"
        = some (.int (latency 0 5)))
    ∧ ((uniswapSell "n" fetchW1 (Except.ok ⟨21000, "0xabc", 1⟩) 0 5
          { privateKey := "k", base := "b", quote := "q", amount := 1,
            maxPrice := none, gasPrice := none }).field "network"
        = some (.str "n")
      ∧ (uniswapSell "n" fetchW1 (Except.ok ⟨21000, "0xabc", 1⟩) 0 5
          { privateKey := "k", base := "b", quote := "q", amount := 1,
            maxPrice := none, gasPrice := none }).field "timestamp"
        = some (.int 0)
      ∧ (uniswapSell "n" fetchW1 (Except.ok ⟨21000, "0xabc", 1⟩) 0 5
          { privateKey := "k", base := "b", quote := "q", amount := 1,
            maxPrice := none, gasPrice := none }).field "latency"
        = some (.int (latency 0 5)))
    ∧ ((uniswapBuy "n" fetchW1 (Except.ok ⟨21000, "0xabc", 1⟩) 0 5
          { privateKey := "k", base := "b", quote := "q", amount := 1,
            maxPrice := none, gasPrice := none }).field "network"
        = some (.str "n")
      ∧ (uniswapBuy "n" fetchW1 (Except.ok ⟨21000, "0xabc", 1⟩) 0 5
          { privateKey := "k", base := "b", quote := "q", amount := 1,
            maxPrice := none, gasPrice := none }).field "timestamp"
        = some (.int 0)
      ∧ (uniswapBuy "n" fetchW1 (Except.ok ⟨21000, "0xabc", 1⟩) 0 5
          { privateKey := "k", base := "b", quote := "q", amount := 1,
            maxPrice := none, gasPrice := none }).field "latency"
        = some (.int (latency 0 5)))
    ∧ ((balancerPrice "n2" id (fun _ _ _ => ⟨[], 10 ^ 18⟩) 0 5 "ti" "to"
          1).field "network" = some (.str "n2")
      ∧ (balancerPrice "n2" id (fun _ _ _ => ⟨[], 10 ^ 18⟩) 0 5 "ti" "to"
          1).field "timestamp" = some (.int 0)
      ∧ (balancerPrice "n2" id (fun _ _ _ => ⟨[], 10 ^ 18⟩) 0 5 "ti" "to"
          1).field "latency" = some (.int (latency 0 5)))
    ∧ ((balancerTrade "n2" "e" id (fun _ _ _ => ⟨[], 10 ^ 18⟩) "h1" 0 5
          "ti" "to" 1 none).field "network" = some (.str "n2")
      ∧ (balancerTrade "n2" "e" id (fun _ _ _ => ⟨[], 10 ^ 18⟩) "h1" 0 5
          "ti" "to" 1 none).field "timestamp" = some (.int 0)
      ∧ (balancerTrade "n2" "e" id (fun _ _ _ => ⟨[], 10 ^ 18⟩) "h1" 0 5
          "ti" "to" 1 none).field "latency" = some (.int (latency 0 5)))
    ∧ (0 : ℤ) ≤ latency 0 5
    ∧ (uniswapSell "n" fetchW1 (Except.ok ⟨21000, "0xabc", 1⟩) 0 5
        { privateKey := "k", base := "b", quote := "q", amount := 1,
          maxPrice := some (.num 100), gasPrice := none }).field "network"
      = none
    ∧ noPoolResponse.body.lookup "network" = none
    ∧ (classifiedResponse ⟨none⟩).body.lookup "network" = none) :=
  ⟨⟨by with_unfolding_all rfl, by with_unfolding_all rfl, rfl, rfl,
    by with_unfolding_all decide, rfl, by decide⟩,
   C8_metadata_amended "n" fetchW1 ⟨21000, "0xabc", 1⟩
     (Except.ok ⟨21000, "0xabc", 1⟩) 0 5
     { privateKey := "k", base := "b", quote := "q", amount := 1,
       maxPrice := none, gasPrice := none }
     { privateKey := "k", base := "b", quote := "q", amount := 1,
       maxPrice := some (.num 100), gasPrice := none }
     ⟨95, []⟩ ⟨1 / 200, []⟩ ⟨95, []⟩ ⟨none⟩ "n2" "e" id
     (fun _ _ _ => ⟨[], 10 ^ 18⟩) "h1" "ti" "to" 1 none
     (by with_unfolding_all rfl) (by with_unfolding_all rfl) rfl rfl
     (by with_unfolding_all rfl) (by with_unfolding_all decide) rfl
     (by decide)⟩

/-- Claim C10, counterexample: the weighted-pool router runs its trade
handler — querying the route and invoking the executor with a 200
response — even for a request whose client certificate is not authorized
and carries no subject, instead of rejecting it with 401. -/
theorem C10_cert_counterexample :
    (balancerRouterTrade ⟨false, none⟩ "n" "e" id
      (fun _ _ _ => ⟨[], 10 ^ 18⟩) "hx" 0 0 "ti" "to" 1 none).executed
      = true
    ∧ (balancerRouterTrade ⟨false, none⟩ "n" "e" id
      (fun _ _ _ => ⟨[], 10 ^ 18⟩) "hx" 0 0 "ti" "to" 1
      none).response.map Response.status = some 200 := by
  with_unfolding_all decide

/-- Claim C10 (amended): on the constant-product router (part_000) every
request whose client certificate is not authorized is rejected before any
pipeline step — 403 when a certificate subject is present, 401 when none —
so no route query, guard check or execution runs there; the weighted-pool
router registers no certificate middleware at all, so its trade handler
behaves identically whatever the certificate state. -/
theorem C10_cert_amended (c : ClientCert) (network : String)
    (f : String → String → Except JsError (Option Route))
    (tx : Except JsError TxObj) (t0 t1 : ℤ) (p : TradeParams)
    (c2 c3 : ClientCert) (net env : String) (erc : String → String)
    (gs : String → String → ℤ → SwapsResult) (hsh tin tout : String)
    (a : ℚ) (m : Option JSNum)
    (hc : c.authorized = false) :
    uniswapRouterSell c network f tx t0 t1 p
      = ⟨false, false, none,
          some (if c.subject.isSome then
              ⟨403, [("error", .str sslCertInvalidMsg)]⟩
            else ⟨401, [("error", .str sslCertRequiredMsg)]⟩)⟩
    ∧ uniswapRouterBuy c network f tx t0 t1 p
      = ⟨false, false, none,
          some (if c.subject.isSome then
              ⟨403, [("error", .str sslCertInvalidMsg)]⟩
            else ⟨401, [("error", .str sslCertRequiredMsg)]⟩)⟩
    ∧ balancerRouterTrade c2 net env erc gs hsh t0 t1 tin tout a m
      = balancerRouterTrade c3 net env erc gs hsh t0 t1 tin tout a m := by
  refine ⟨?_, ?_, rfl⟩
  · unfold uniswapRouterSell withCertMiddleware certMiddleware
    rw [hc]
    cases hs : c.subject <;> simp
  · unfold uniswapRouterBuy withCertMiddleware certMiddleware
    rw [hc]
    cases hs : c.subject <;> simp

/-- Claim C10, witness: an unauthorized certificate with a subject is
rejected with 403 on the constant-product router, and the weighted-pool
router ignores the certificate entirely. -/
theorem C10_cert_amended_witness :
    (ClientCert.authorized ⟨false, some "s"⟩ = false)
    ∧ (uniswapRouterSell ⟨false, some "s"⟩ "n" fetchW1
        (Except.ok ⟨21000, "0xabc", 1⟩) 0 5
        { privateKey := "k", base := "b", quote := "q", amount := 1,
          maxPrice := none, gasPrice := none }
      = ⟨false, false, none,
          some (if (Option.some "s").isSome then
              ⟨403, [("error", .str sslCertInvalidMsg)]⟩
            else ⟨401, [("error", .str sslCertRequiredMsg)]⟩)⟩
      ∧ uniswapRouterBuy ⟨false, some "s"⟩ "n" fetchW1
        (Except.ok ⟨21000, "0xabc", 1⟩) 0 5
        { privateKey := "k", base := "b", quote := "q", amount := 1,
          maxPrice := none, gasPrice := none }
      = ⟨false, false, none,
          some (if (Option.some "s").isSome then
              ⟨403, [("error", .str sslCertInvalidMsg)]⟩
            else ⟨401, [("error", .str sslCertRequiredMsg)]⟩)⟩
      ∧ balancerRouterTrade ⟨false, some "s"⟩ "n2" "e" id
          (fun _ _ _ => ⟨[], 10 ^ 18⟩) "h1" 0 5 "ti" "to" 1 none
        = balancerRouterTrade ⟨true, none⟩ "n2" "e" id
          (fun _ _ _ => ⟨[], 10 ^ 18⟩) "h1" 0 5 "ti" "to" 1 none) :=
  ⟨rfl,
   C10_cert_amended ⟨false, some "s"⟩ "n" fetchW1
     (Except.ok ⟨21000, "0xabc", 1⟩) 0 5
     { privateKey := "k", base := "b", quote := "q", amount := 1,
       maxPrice := none, gasPrice := none }
     ⟨false, some "s"⟩ ⟨true, none⟩ "n2" "e" id
     (fun _ _ _ => ⟨[], 10 ^ 18⟩) "h1" "ti" "to" 1 none rfl⟩

end GatewayApi
